import Mathlib

/-!
Shallow embedding of the cnit48101 final-project microservices
(app.py, db.py, auth.py, baseline/app.py, otel_instrumentation.py).

Each HTTP handler is embedded as a pure Lean function from an explicit
request environment (header values plus the outcomes of its outbound
collaborator calls) to the pair of
  * the caller-visible result (an `Except` of an HTTP error or a JSON body),
  * the ordered list of telemetry events the handler emits
    (span open/close, span error status, span attributes, metric
    observations, outbound call attempts), in source order.

Python `with tracer.start_as_current_span(...)` blocks are embedded by
emitting the matching close event on every exit path of the block,
which is exactly what the context manager guarantees.  `httpx` timeouts
raise `httpx.TimeoutException`, a subclass of `httpx.RequestError`, so a
single `reqError` outcome covers both connection refusal and the
5-second timeout expiry.  Collaborator response bodies are modelled as
already-parsed JSON values.
-/

namespace Cnit

/-- JSON-like values, used for request/response bodies and span attribute
values. -/
inductive JsonVal where
  | null
  | str (s : String)
  | num (n : Int)
  | bool (b : Bool)
  | arr (elems : List JsonVal)
  | obj (fields : List (String × JsonVal))

/-- Outcome of one outbound `httpx` call as the handler observes it:
either a response with a status code and a parsed JSON body, or
`reqError` for `httpx.RequestError` (connection failure, and timeout via
its subclass `httpx.TimeoutException`). -/
inductive HttpOutcome where
  | resp (status : Nat) (body : JsonVal)
  | reqError

/-- A raised `HTTPException`: caller-visible status code and detail
string. -/
structure HttpErr where
  status : Nat
  detail : String
deriving DecidableEq

/-- Telemetry events emitted by a handler, in program order. -/
inductive TelemetryEvent where
  | spanOpen (name : String)
  | spanClose (name : String)
  | setError (span : String) (message : String)
  | setAttr (span : String) (key : String) (val : JsonVal)
  | countObs (instrument : String) (delta : Nat) (tags : List (String × String))
  | durObs (instrument : String) (tags : List (String × String))
  | callOut (baseUrl : String) (path : String) (timeoutSecs : Nat)

/-- Default value of `AUTH_SERVICE_URL` (app.py line 14). -/
def AUTH_SERVICE_URL : String := "http://localhost:8081"

/-- Default value of `DB_SERVICE_URL` (app.py line 15). -/
def DB_SERVICE_URL : String := "http://localhost:8082"

/-- Python truthiness of the optional `authorization` header value:
`Header(None)` is falsy, and so is the empty string. -/
def truthy : Option String → Bool
  | none => false
  | some s => !s.isEmpty

/-- Lookup in a JSON object field list (first match wins, as in a Python
dict). -/
def jLookup : List (String × JsonVal) → String → Option JsonVal
  | [], _ => none
  | (k, v) :: rest, key => if k = key then some v else jLookup rest key

/-- Python `value[key]` on a parsed JSON value: only defined on objects. -/
def jGet : JsonVal → String → Option JsonVal
  | JsonVal.obj fields, key => jLookup fields key
  | _, _ => none

/-- A single apostrophe, for embedding Python f-string literals. -/
def sq : String := String.singleton (Char.ofNat 39)

namespace AppSvc

/-- Embedding of the token-validation block repeated verbatim in each
app.py handler (for example lines 40-56): open the `app.validate_token`
child span, call `POST {AUTH_SERVICE_URL}/validate` with a 5 second
timeout, and translate a non-200 response to 401 and a connection
failure to 503, marking both the child span and the root span (named
`rootSpan`) as errors.  Returns the block outcome and its events; the
child span is closed on every path. -/
def validateTokenBlock (rootSpan : String) (authResp : HttpOutcome) :
    Except HttpErr Unit × List TelemetryEvent :=
  let pre : List TelemetryEvent :=
    [.spanOpen "app.validate_token",
     .setAttr "app.validate_token" "service" (.str "auth-service"),
     .callOut AUTH_SERVICE_URL "/validate" 5]
  match authResp with
  | .resp s _ =>
      if s ≠ 200 then
        (Except.error ⟨401, "Invalid token"⟩,
         pre ++ [.setError "app.validate_token" "Invalid token",
                 .setError rootSpan "Invalid token",
                 .spanClose "app.validate_token"])
      else
        (Except.ok (), pre ++ [.spanClose "app.validate_token"])
  | .reqError =>
      (Except.error ⟨503, "Auth service unavailable"⟩,
       pre ++ [.setError "app.validate_token" "Auth service unavailable",
               .setError rootSpan "Auth service unavailable",
               .spanClose "app.validate_token"])

/-- Request environment for `POST /api/data` (app.py `create_data`). -/
structure CreateDataEnv where
  data : JsonVal
  authorization : Option String
  authResp : HttpOutcome
  dbResp : HttpOutcome

/-- Embedding of app.py lines 25-81, `create_data`.  The success path
reads `result.get("id", "")`, which on a non-object JSON body raises
`AttributeError` and surfaces as a generic 500 (spans still close via
the context managers). -/
def create_data (env : CreateDataEnv) : Except HttpErr JsonVal × List TelemetryEvent :=
  let pre : List TelemetryEvent :=
    [.countObs "http_requests_total" 1 [("method", "POST"), ("endpoint", "/api/data")],
     .spanOpen "app.create_data",
     .setAttr "app.create_data" "http.method" (.str "POST"),
     .setAttr "app.create_data" "http.route" (.str "/api/data")]
  if truthy env.authorization = false then
    (Except.error ⟨401, "Missing authorization header"⟩,
     pre ++ [.setError "app.create_data" "Missing authorization",
             .spanClose "app.create_data"])
  else
    match validateTokenBlock "app.create_data" env.authResp with
    | (Except.error e, evs) =>
        (Except.error e, pre ++ evs ++ [.spanClose "app.create_data"])
    | (Except.ok _, evs) =>
        let dbPre : List TelemetryEvent :=
          [.spanOpen "app.store_data",
           .setAttr "app.store_data" "service" (.str "db-service"),
           .callOut DB_SERVICE_URL "/store" 5]
        match env.dbResp with
        | .reqError =>
            (Except.error ⟨503, "Database service unavailable"⟩,
             pre ++ evs ++ dbPre ++
               [.setError "app.store_data" "Database service unavailable",
                .setError "app.create_data" "Database service unavailable",
                .spanClose "app.store_data", .spanClose "app.create_data"])
        | .resp s body =>
            if s ≠ 200 then
              (Except.error ⟨500, "Database operation failed"⟩,
               pre ++ evs ++ dbPre ++
                 [.setError "app.store_data" "Database operation failed",
                  .setError "app.create_data" "Database operation failed",
                  .spanClose "app.store_data", .spanClose "app.create_data"])
            else
              match body with
              | JsonVal.obj fields =>
                  (Except.ok (JsonVal.obj fields),
                   pre ++ evs ++ dbPre ++
                     [.setAttr "app.create_data" "item.id"
                        ((jLookup fields "id").getD (.str "")),
                      .durObs "http_request_duration_seconds"
                        [("method", "POST"), ("endpoint", "/api/data"), ("status", "200")],
                      .spanClose "app.store_data", .spanClose "app.create_data"])
              | _ =>
                  (Except.error ⟨500, "Internal Server Error"⟩,
                   pre ++ evs ++ dbPre ++
                     [.spanClose "app.store_data", .spanClose "app.create_data"])

/-- Request environment for `GET /api/data/{item_id}` (app.py `get_data`),
shared with the uninstrumented baseline handler. -/
structure GetDataEnv where
  item_id : String
  authorization : Option String
  authResp : HttpOutcome
  dbResp : HttpOutcome

/-- Embedding of app.py lines 83-142, `get_data`. -/
def get_data (env : GetDataEnv) : Except HttpErr JsonVal × List TelemetryEvent :=
  let pre : List TelemetryEvent :=
    [.countObs "http_requests_total" 1 [("method", "GET"), ("endpoint", "/api/data/{id}")],
     .spanOpen "app.get_data",
     .setAttr "app.get_data" "http.method" (.str "GET"),
     .setAttr "app.get_data" "http.route" (.str "/api/data/{item_id}"),
     .setAttr "app.get_data" "item.id" (.str env.item_id)]
  if truthy env.authorization = false then
    (Except.error ⟨401, "Missing authorization header"⟩,
     pre ++ [.setError "app.get_data" "Missing authorization",
             .spanClose "app.get_data"])
  else
    match validateTokenBlock "app.get_data" env.authResp with
    | (Except.error e, evs) =>
        (Except.error e, pre ++ evs ++ [.spanClose "app.get_data"])
    | (Except.ok _, evs) =>
        let dbPre : List TelemetryEvent :=
          [.spanOpen "app.retrieve_data",
           .setAttr "app.retrieve_data" "service" (.str "db-service"),
           .callOut DB_SERVICE_URL ("/retrieve/" ++ env.item_id) 5]
        match env.dbResp with
        | .reqError =>
            (Except.error ⟨503, "Database service unavailable"⟩,
             pre ++ evs ++ dbPre ++
               [.setError "app.retrieve_data" "Database service unavailable",
                .setError "app.get_data" "Database service unavailable",
                .spanClose "app.retrieve_data", .spanClose "app.get_data"])
        | .resp s body =>
            if s = 404 then
              (Except.error ⟨404, "Item not found"⟩,
               pre ++ evs ++ dbPre ++
                 [.setError "app.retrieve_data" "Item not found",
                  .setError "app.get_data" "Item not found",
                  .spanClose "app.retrieve_data", .spanClose "app.get_data"])
            else if s ≠ 200 then
              (Except.error ⟨500, "Database operation failed"⟩,
               pre ++ evs ++ dbPre ++
                 [.setError "app.retrieve_data" "Database operation failed",
                  .setError "app.get_data" "Database operation failed",
                  .spanClose "app.retrieve_data", .spanClose "app.get_data"])
            else
              (Except.ok body,
               pre ++ evs ++ dbPre ++
                 [.durObs "http_request_duration_seconds"
                    [("method", "GET"), ("endpoint", "/api/data/{id}"), ("status", "200")],
                  .spanClose "app.retrieve_data", .spanClose "app.get_data"])

/-- Request environment for `GET /api/preset/{preset_id}` (app.py
`get_preset_data`). -/
structure GetPresetEnv where
  preset_id : String
  authorization : Option String
  authResp : HttpOutcome

/-- Preset data mappings (app.py lines 179-183). -/
def presetData : List (String × JsonVal) :=
  [("welcome", .obj [("message", .str "Welcome to the microservices application"),
                     ("version", .str "1.0")]),
   ("status", .obj [("services", .arr [.str "app", .str "auth", .str "db"]),
                    ("status", .str "operational")]),
   ("info", .obj [("description", .str "This is a microservices demo with OpenTelemetry"),
                  ("author", .str "CNIT48101 Team")])]

/-- Detail string of the preset-not-found `HTTPException` (app.py line
192), rendering the Python f-string with the dict keys list. -/
def presetNotFoundDetail (p : String) : String :=
  "Preset " ++ sq ++ p ++ sq ++ " not found. Available: [" ++
    sq ++ "welcome" ++ sq ++ ", " ++ sq ++ "status" ++ sq ++ ", " ++
    sq ++ "info" ++ sq ++ "]"

/-- Embedding of app.py lines 144-192, `get_preset_data`. -/
def get_preset_data (env : GetPresetEnv) : Except HttpErr JsonVal × List TelemetryEvent :=
  let pre : List TelemetryEvent :=
    [.countObs "http_requests_total" 1 [("method", "GET"), ("endpoint", "/api/preset/{id}")],
     .spanOpen "app.get_preset",
     .setAttr "app.get_preset" "http.method" (.str "GET"),
     .setAttr "app.get_preset" "http.route" (.str "/api/preset/{preset_id}"),
     .setAttr "app.get_preset" "preset.id" (.str env.preset_id)]
  if truthy env.authorization = false then
    (Except.error ⟨401, "Missing authorization header"⟩,
     pre ++ [.setError "app.get_preset" "Missing authorization",
             .spanClose "app.get_preset"])
  else
    match validateTokenBlock "app.get_preset" env.authResp with
    | (Except.error e, evs) =>
        (Except.error e, pre ++ evs ++ [.spanClose "app.get_preset"])
    | (Except.ok _, evs) =>
        match jLookup presetData env.preset_id with
        | some v =>
            (Except.ok (.obj [("preset_id", .str env.preset_id), ("data", v)]),
             pre ++ evs ++
               [.setAttr "app.get_preset" "preset.found" (.bool true),
                .durObs "http_request_duration_seconds"
                  [("method", "GET"), ("endpoint", "/api/preset/{id}"), ("status", "200")],
                .spanClose "app.get_preset"])
        | none =>
            (Except.error ⟨404, presetNotFoundDetail env.preset_id⟩,
             pre ++ evs ++
               [.setError "app.get_preset" "Preset not found",
                .spanClose "app.get_preset"])

/-- Request environment for `GET /api/presets` (app.py `list_presets`). -/
structure ListPresetsEnv where
  authorization : Option String
  authResp : HttpOutcome

/-- Embedding of app.py lines 194-232, `list_presets`. -/
def list_presets (env : ListPresetsEnv) : Except HttpErr JsonVal × List TelemetryEvent :=
  let pre : List TelemetryEvent :=
    [.countObs "http_requests_total" 1 [("method", "GET"), ("endpoint", "/api/presets")],
     .spanOpen "app.list_presets",
     .setAttr "app.list_presets" "http.method" (.str "GET"),
     .setAttr "app.list_presets" "http.route" (.str "/api/presets")]
  if truthy env.authorization = false then
    (Except.error ⟨401, "Missing authorization header"⟩,
     pre ++ [.setError "app.list_presets" "Missing authorization",
             .spanClose "app.list_presets"])
  else
    match validateTokenBlock "app.list_presets" env.authResp with
    | (Except.error e, evs) =>
        (Except.error e, pre ++ evs ++ [.spanClose "app.list_presets"])
    | (Except.ok _, evs) =>
        (Except.ok (.obj
           [("available_presets", .arr [.str "welcome", .str "status", .str "info"]),
            ("description", .str "Use /api/preset/{preset_id} to retrieve specific preset data")]),
         pre ++ evs ++
           [.durObs "http_request_duration_seconds"
              [("method", "GET"), ("endpoint", "/api/presets"), ("status", "200")],
            .spanClose "app.list_presets"])

/-- Seed items posted to the db service (app.py lines 268-272). -/
def seedItems : List JsonVal :=
  [.obj [("name", .str "Sample Item 1"), ("type", .str "test"), ("value", .num 100)],
   .obj [("name", .str "Sample Item 2"), ("type", .str "demo"), ("value", .num 200)],
   .obj [("name", .str "Sample Item 3"), ("type", .str "example"), ("value", .num 300)]]

/-- Outcome of one iteration of the seeding loop. -/
inductive SeedStep where
  | stored (id : JsonVal)
  | skipped
  | crashed

/-- Embedding of one iteration of the seeding loop (app.py lines
278-293): open the `app.seed_item` span, attempt the store call, record
the returned id on 200, mark the item span on connection failure, skip
silently on any other non-200 status.  A 200 body without an `id` key
(or a non-object body) makes `db_response.json()["id"]` raise, which
aborts the loop (`crashed`); the item span still closes. -/
def seedItemStep (idx : Nat) (outcome : HttpOutcome) : SeedStep × List TelemetryEvent :=
  let pre : List TelemetryEvent :=
    [.spanOpen "app.seed_item",
     .setAttr "app.seed_item" "item.index" (.num (Int.ofNat idx)),
     .callOut DB_SERVICE_URL "/store" 5]
  match outcome with
  | .reqError =>
      (SeedStep.skipped,
       pre ++ [.setError "app.seed_item" "Failed to store item",
               .spanClose "app.seed_item"])
  | .resp s body =>
      if s = 200 then
        match jGet body "id" with
        | some v =>
            (SeedStep.stored v,
             pre ++ [.setAttr "app.seed_item" "item.id" v,
                     .spanClose "app.seed_item"])
        | none => (SeedStep.crashed, pre ++ [.spanClose "app.seed_item"])
      else (SeedStep.skipped, pre ++ [.spanClose "app.seed_item"])

/-- Embedding of the `for idx, item in enumerate(seed_items)` loop
(app.py lines 278-293).  Returns whether the loop ran to completion
(false when an iteration raised), the collected item ids, and the
emitted events. -/
def seedLoop : Nat → List JsonVal → (Nat → HttpOutcome) →
    Bool × List JsonVal × List TelemetryEvent
  | _, [], _ => (true, [], [])
  | idx, _ :: rest, storeResp =>
      match seedItemStep idx (storeResp idx) with
      | (SeedStep.crashed, evs) => (false, [], evs)
      | (SeedStep.skipped, evs) =>
          let r := seedLoop (idx + 1) rest storeResp
          (r.1, r.2.1, evs ++ r.2.2)
      | (SeedStep.stored v, evs) =>
          let r := seedLoop (idx + 1) rest storeResp
          (r.1, v :: r.2.1, evs ++ r.2.2)

/-- Request environment for `POST /api/seed` (app.py `seed_preset_data`):
`storeResp` gives the outcome of the store call made for the item at
each index. -/
structure SeedEnv where
  authorization : Option String
  authResp : HttpOutcome
  storeResp : Nat → HttpOutcome

/-- Embedding of app.py lines 234-302, `seed_preset_data`. -/
def seed_preset_data (env : SeedEnv) : Except HttpErr JsonVal × List TelemetryEvent :=
  let pre : List TelemetryEvent :=
    [.countObs "http_requests_total" 1 [("method", "POST"), ("endpoint", "/api/seed")],
     .spanOpen "app.seed_data",
     .setAttr "app.seed_data" "http.method" (.str "POST"),
     .setAttr "app.seed_data" "http.route" (.str "/api/seed")]
  if truthy env.authorization = false then
    (Except.error ⟨401, "Missing authorization header"⟩,
     pre ++ [.setError "app.seed_data" "Missing authorization",
             .spanClose "app.seed_data"])
  else
    match validateTokenBlock "app.seed_data" env.authResp with
    | (Except.error e, evs) =>
        (Except.error e, pre ++ evs ++ [.spanClose "app.seed_data"])
    | (Except.ok _, evs) =>
        let seedPre : List TelemetryEvent :=
          [.spanOpen "app.seed_items",
           .setAttr "app.seed_items" "items.count" (.num (Int.ofNat seedItems.length))]
        match seedLoop 0 seedItems env.storeResp with
        | (false, _, loopEvs) =>
            (Except.error ⟨500, "Internal Server Error"⟩,
             pre ++ evs ++ seedPre ++ loopEvs ++
               [.spanClose "app.seed_items", .spanClose "app.seed_data"])
        | (true, ids, loopEvs) =>
            (Except.ok (.obj
               [("status", .str "seeded"),
                ("items_created", .num (Int.ofNat ids.length)),
                ("item_ids", .arr ids)]),
             pre ++ evs ++ seedPre ++ loopEvs ++
               [.spanClose "app.seed_items",
                .setAttr "app.seed_data" "items.created" (.num (Int.ofNat ids.length)),
                .durObs "http_request_duration_seconds"
                  [("method", "POST"), ("endpoint", "/api/seed"), ("status", "200")],
                .spanClose "app.seed_data"])

end AppSvc

namespace BaselineApp

/-- Embedding of baseline/app.py lines 53-86, the uninstrumented
`get_data` handler, over the same request environment as the
instrumented one.  It emits no telemetry. -/
def get_data (env : AppSvc.GetDataEnv) : Except HttpErr JsonVal :=
  if truthy env.authorization = false then
    Except.error ⟨401, "Missing authorization header"⟩
  else
    match env.authResp with
    | .reqError => Except.error ⟨503, "Auth service unavailable"⟩
    | .resp s _ =>
        if s ≠ 200 then Except.error ⟨401, "Invalid token"⟩
        else
          match env.dbResp with
          | .reqError => Except.error ⟨503, "Database service unavailable"⟩
          | .resp ds body =>
              if ds = 404 then Except.error ⟨404, "Item not found"⟩
              else if ds ≠ 200 then Except.error ⟨500, "Database operation failed"⟩
              else Except.ok body

end BaselineApp

namespace DbSvc

/-- Request environment for `POST /store` (db.py `store_data`):
`itemId` is the freshly generated `uuid4` string, `now` the
`datetime.utcnow().isoformat()` timestamp, and `insertResult` the
outcome of the SQL insert plus commit (`Except.error` carries the
`sqlite3.Error` message). -/
structure StoreDataEnv where
  data : JsonVal
  authorization : Option String
  itemId : String
  now : String
  insertResult : Except String Unit

/-- Embedding of db.py lines 96-144, `store_data`. -/
def store_data (env : StoreDataEnv) : Except HttpErr JsonVal × List TelemetryEvent :=
  let pre : List TelemetryEvent :=
    [.countObs "http_requests_total" 1 [("method", "POST"), ("endpoint", "/store")],
     .countObs "db_operations_total" 1 [("operation", "insert"), ("table", "items")],
     .spanOpen "db.store_data",
     .setAttr "db.store_data" "http.method" (.str "POST"),
     .setAttr "db.store_data" "http.route" (.str "/store"),
     .setAttr "db.store_data" "db.operation" (.str "insert"),
     .setAttr "db.store_data" "db.table" (.str "items")]
  if truthy env.authorization = false then
    (Except.error ⟨401, "Missing authorization header"⟩,
     pre ++ [.setError "db.store_data" "Missing authorization",
             .spanClose "db.store_data"])
  else
    let mid : List TelemetryEvent :=
      [.setAttr "db.store_data" "item.id" (.str env.itemId),
       .spanOpen "db.execute_insert"]
    match env.insertResult with
    | Except.ok _ =>
        (Except.ok (.obj [("id", .str env.itemId), ("status", .str "stored"),
                          ("created_at", .str env.now)]),
         pre ++ mid ++
           [.setAttr "db.execute_insert" "db.rows_affected" (.num 1),
            .spanClose "db.execute_insert",
            .durObs "db_operation_duration_seconds"
              [("operation", "insert"), ("table", "items")],
            .durObs "http_request_duration_seconds"
              [("method", "POST"), ("endpoint", "/store"), ("status", "200")],
            .spanClose "db.store_data"])
    | Except.error e =>
        (Except.error ⟨500, "Database error: " ++ e⟩,
         pre ++ mid ++
           [.spanClose "db.execute_insert",
            .setError "db.store_data" ("Database error: " ++ e),
            .spanClose "db.store_data"])

/-- Request environment for `GET /user/{username}` (db.py `get_user`).
The handler signature declares no authorization header; `authorization`
records whatever header the caller may have sent, and the embedding
never reads it.  `queryResult` is the outcome of the SQL select: an
optional `(username, password)` row, or a `sqlite3.Error` message. -/
structure GetUserEnv where
  username : String
  authorization : Option String
  queryResult : Except String (Option (String × String))

/-- Embedding of db.py lines 299-339, `get_user`. -/
def get_user (env : GetUserEnv) : Except HttpErr JsonVal × List TelemetryEvent :=
  let pre : List TelemetryEvent :=
    [.countObs "http_requests_total" 1 [("method", "GET"), ("endpoint", "/user/{username}")],
     .countObs "db_operations_total" 1 [("operation", "select"), ("table", "users")],
     .spanOpen "db.get_user",
     .setAttr "db.get_user" "http.method" (.str "GET"),
     .setAttr "db.get_user" "http.route" (.str "/user/{username}"),
     .setAttr "db.get_user" "db.operation" (.str "select"),
     .setAttr "db.get_user" "db.table" (.str "users"),
     .setAttr "db.get_user" "user.username" (.str env.username),
     .spanOpen "db.execute_select"]
  match env.queryResult with
  | Except.error e =>
      (Except.error ⟨500, "Database error: " ++ e⟩,
       pre ++ [.spanClose "db.execute_select",
               .setError "db.get_user" ("Database error: " ++ e),
               .spanClose "db.get_user"])
  | Except.ok none =>
      (Except.error ⟨404, "User not found"⟩,
       pre ++ [.setAttr "db.execute_select" "db.rows_returned" (.num 0),
               .spanClose "db.execute_select",
               .setError "db.get_user" "User not found",
               .spanClose "db.get_user"])
  | Except.ok (some (u, p)) =>
      (Except.ok (.obj [("username", .str u), ("password", .str p)]),
       pre ++ [.setAttr "db.execute_select" "db.rows_returned" (.num 1),
               .spanClose "db.execute_select",
               .durObs "db_operation_duration_seconds"
                 [("operation", "select"), ("table", "users")],
               .durObs "http_request_duration_seconds"
                 [("method", "GET"), ("endpoint", "/user/{username}"), ("status", "200")],
               .spanClose "db.get_user"])

end DbSvc

namespace AuthSvc

/-- Outcome of `jwt.decode` (an external signing primitive the spec
excludes from the core): success carries `payload.get("username")`,
`payload.get("exp")` and `payload.get("iat")` (`validate_token` reads
username and exp, `token_info` reads username, exp and iat); failure is
either an `ExpiredSignatureError` or an `InvalidTokenError` with its
message. -/
inductive DecodeOutcome where
  | ok (username : Option String) (exp : Option Int) (iat : Option Int)
  | expired
  | invalid (msg : String)

/-- Request environment for `POST /validate` (auth.py `validate_token`). -/
structure ValidateEnv where
  authorization : Option String
  decodeResult : DecodeOutcome

/-- Render a Python optional value as a JSON/attribute value (`None`
maps to null). -/
def jOfOptStr : Option String → JsonVal
  | none => .null
  | some s => .str s

/-- Render an optional integer as a JSON value. -/
def jOfOptInt : Option Int → JsonVal
  | none => .null
  | some n => .num n

/-- Embedding of auth.py lines 88-133, `validate_token`.  Token
extraction from the header (lines 103-110) cannot raise: when the value
starts with `Bearer ` the split always has a second element, so the
`IndexError` branch is dead; it emits no events either way.  The jwt
exceptions are raised inside the `auth.decode_token` span and caught
outside it, so the child span closes before the root span is marked. -/
def validate_token (env : ValidateEnv) : Except HttpErr JsonVal × List TelemetryEvent :=
  let pre : List TelemetryEvent :=
    [.countObs "http_requests_total" 1 [("method", "POST"), ("endpoint", "/validate")],
     .spanOpen "auth.validate_token",
     .setAttr "auth.validate_token" "http.method" (.str "POST"),
     .setAttr "auth.validate_token" "http.route" (.str "/validate")]
  if truthy env.authorization = false then
    (Except.error ⟨401, "Missing authorization header"⟩,
     pre ++ [.setError "auth.validate_token" "Missing authorization header",
             .spanClose "auth.validate_token"])
  else
    let decodePre : List TelemetryEvent := [.spanOpen "auth.decode_token"]
    match env.decodeResult with
    | DecodeOutcome.ok uname exp _ =>
        (Except.ok (.obj [("valid", .bool true), ("username", jOfOptStr uname),
                          ("expires_at", jOfOptInt exp)]),
         pre ++ decodePre ++
           [.setAttr "auth.decode_token" "user.username" (jOfOptStr uname),
            .setAttr "auth.validate_token" "user.username" (jOfOptStr uname),
            .setAttr "auth.validate_token" "auth.valid" (.bool true),
            .durObs "http_request_duration_seconds"
              [("method", "POST"), ("endpoint", "/validate"), ("status", "200")],
            .spanClose "auth.decode_token",
            .spanClose "auth.validate_token"])
    | DecodeOutcome.expired =>
        (Except.error ⟨401, "Token expired"⟩,
         pre ++ decodePre ++
           [.spanClose "auth.decode_token",
            .setError "auth.validate_token" "Token expired",
            .spanClose "auth.validate_token"])
    | DecodeOutcome.invalid msg =>
        (Except.error ⟨401, "Invalid token"⟩,
         pre ++ decodePre ++
           [.spanClose "auth.decode_token",
            .setError "auth.validate_token" ("Invalid token: " ++ msg),
            .spanClose "auth.validate_token"])

end AuthSvc

/-! Python value semantics needed by the remaining handlers (login and
create_user read untyped dict fields and compare JSON values). -/

/-- Python truthiness of a JSON value: None, empty string, zero, False
and empty containers are falsy. -/
def pyTruthy : JsonVal → Bool
  | JsonVal.null => false
  | JsonVal.str s => !s.isEmpty
  | JsonVal.num n => n != 0
  | JsonVal.bool b => b
  | JsonVal.arr xs => !xs.isEmpty
  | JsonVal.obj fs => !fs.isEmpty

/-- Python truthiness of `dict.get(key)`: a missing key yields None,
which is falsy. -/
def optPyTruthy : Option JsonVal → Bool
  | none => false
  | some v => pyTruthy v

mutual

/-- Python equality on parsed JSON values, used by login's password
comparison.  Object fields are compared in order (Python dict equality
is order-insensitive, and Python True equals 1; neither case arises for
the flat string credentials this system stores, and no theorem depends
on those corners — the comparison is case-split over in the proofs). -/
def jEq : JsonVal → JsonVal → Bool
  | JsonVal.null, JsonVal.null => true
  | JsonVal.str a, JsonVal.str b => a == b
  | JsonVal.num a, JsonVal.num b => a == b
  | JsonVal.bool a, JsonVal.bool b => a == b
  | JsonVal.arr xs, JsonVal.arr ys => jEqList xs ys
  | JsonVal.obj xs, JsonVal.obj ys => jEqFields xs ys
  | _, _ => false

/-- Elementwise Python equality of two JSON arrays. -/
def jEqList : List JsonVal → List JsonVal → Bool
  | [], [] => true
  | x :: xs, y :: ys => jEq x y && jEqList xs ys
  | _, _ => false

/-- Ordered fieldwise equality of two JSON objects. -/
def jEqFields : List (String × JsonVal) → List (String × JsonVal) → Bool
  | [], [] => true
  | (k1, v1) :: xs, (k2, v2) :: ys => k1 == k2 && jEq v1 v2 && jEqFields xs ys
  | _, _ => false

end

/-- Python `str()` of a JSON value as interpolated into the
`/user/{username}` URL by login: exact for the scalar values this
system sends; the `repr`-based rendering of containers is abstracted to
bracket placeholders, on which no theorem depends. -/
def pyStr : JsonVal → String
  | JsonVal.null => "None"
  | JsonVal.str s => s
  | JsonVal.num n => toString n
  | JsonVal.bool b => if b then "True" else "False"
  | JsonVal.arr _ => "[...]"
  | JsonVal.obj _ => "\x7b...\x7d"

namespace AuthSvc

/-- Token lifetime constant (auth.py line 18). -/
def TOKEN_EXPIRY_MINUTES : Nat := 30

/-- Request environment for `POST /login` (auth.py `login`):
`credentials` is the parsed request dict, `dbResp` the outcome of
`GET {DB_SERVICE_URL}/user/{username}`, and `token` the string produced
by the opaque `jwt.encode` signing primitive. -/
structure LoginEnv where
  credentials : List (String × JsonVal)
  dbResp : HttpOutcome
  token : String

/-- Embedding of auth.py lines 29-86, `login`.  The `auth.generate_token`
span is nested inside `auth.validate_credentials`, and the success
return happens inside all three spans, so they close innermost-first.
`user_data.get("password")` on a non-object 200 body raises
`AttributeError` and surfaces as a generic 500 with the spans still
closing. -/
def login (env : LoginEnv) : Except HttpErr JsonVal × List TelemetryEvent :=
  let pre : List TelemetryEvent :=
    [.countObs "http_requests_total" 1 [("method", "POST"), ("endpoint", "/login")],
     .spanOpen "auth.login",
     .setAttr "auth.login" "http.method" (.str "POST"),
     .setAttr "auth.login" "http.route" (.str "/login")]
  let missingRes : Except HttpErr JsonVal × List TelemetryEvent :=
    (Except.error ⟨401, "Username and password required"⟩,
     pre ++ [.setError "auth.login" "Missing credentials", .spanClose "auth.login"])
  match jLookup env.credentials "username", jLookup env.credentials "password" with
  | some u, some p =>
      if pyTruthy u = false ∨ pyTruthy p = false then missingRes
      else
        let pre2 : List TelemetryEvent := pre ++
          [.setAttr "auth.login" "user.username" u,
           .spanOpen "auth.validate_credentials",
           .setAttr "auth.validate_credentials" "service" (.str "db-service"),
           .callOut DB_SERVICE_URL ("/user/" ++ pyStr u) 5]
        match env.dbResp with
        | .reqError =>
            (Except.error ⟨503, "Database service unavailable"⟩,
             pre2 ++ [.setError "auth.validate_credentials" "Database service unavailable",
                      .setError "auth.login" "Database service unavailable",
                      .spanClose "auth.validate_credentials", .spanClose "auth.login"])
        | .resp s body =>
            if s ≠ 200 then
              (Except.error ⟨401, "Invalid credentials"⟩,
               pre2 ++ [.setError "auth.validate_credentials" "User not found",
                        .setError "auth.login" "Invalid credentials",
                        .spanClose "auth.validate_credentials", .spanClose "auth.login"])
            else
              match body with
              | JsonVal.obj fields =>
                  let pwMatches : Bool :=
                    match jLookup fields "password" with
                    | some v => jEq v p
                    | none => false
                  if pwMatches = false then
                    (Except.error ⟨401, "Invalid credentials"⟩,
                     pre2 ++ [.setError "auth.validate_credentials" "Invalid password",
                              .setError "auth.login" "Invalid credentials",
                              .spanClose "auth.validate_credentials", .spanClose "auth.login"])
                  else
                    (Except.ok (.obj
                       [("token", .str env.token),
                        ("expires_in", .num (Int.ofNat (TOKEN_EXPIRY_MINUTES * 60)))]),
                     pre2 ++
                       [.spanOpen "auth.generate_token",
                        .setAttr "auth.generate_token" "token.expires_in_minutes"
                          (.num (Int.ofNat TOKEN_EXPIRY_MINUTES)),
                        .setAttr "auth.login" "auth.success" (.bool true),
                        .durObs "http_request_duration_seconds"
                          [("method", "POST"), ("endpoint", "/login"), ("status", "200")],
                        .spanClose "auth.generate_token",
                        .spanClose "auth.validate_credentials",
                        .spanClose "auth.login"])
              | _ =>
                  (Except.error ⟨500, "Internal Server Error"⟩,
                   pre2 ++ [.spanClose "auth.validate_credentials",
                            .spanClose "auth.login"])
  | _, _ => missingRes

/-- Request environment for `GET /token/info` (auth.py `token_info`). -/
structure TokenInfoEnv where
  authorization : Option String
  decodeResult : DecodeOutcome

/-- Embedding of auth.py lines 135-173, `token_info`.  Same shape as
`validate_token`: header-format extraction cannot raise, and the jwt
exceptions are raised inside the `auth.decode_token` span and caught
outside it, so the child span closes before the root span is marked. -/
def token_info (env : TokenInfoEnv) : Except HttpErr JsonVal × List TelemetryEvent :=
  let pre : List TelemetryEvent :=
    [.countObs "http_requests_total" 1 [("method", "GET"), ("endpoint", "/token/info")],
     .spanOpen "auth.token_info",
     .setAttr "auth.token_info" "http.method" (.str "GET"),
     .setAttr "auth.token_info" "http.route" (.str "/token/info")]
  if truthy env.authorization = false then
    (Except.error ⟨401, "Missing authorization header"⟩,
     pre ++ [.setError "auth.token_info" "Missing authorization header",
             .spanClose "auth.token_info"])
  else
    let decodePre : List TelemetryEvent := [.spanOpen "auth.decode_token"]
    match env.decodeResult with
    | DecodeOutcome.ok uname exp iat =>
        (Except.ok (.obj [("username", jOfOptStr uname), ("issued_at", jOfOptInt iat),
                          ("expires_at", jOfOptInt exp)]),
         pre ++ decodePre ++
           [.setAttr "auth.decode_token" "user.username" (jOfOptStr uname),
            .setAttr "auth.token_info" "user.username" (jOfOptStr uname),
            .durObs "http_request_duration_seconds"
              [("method", "GET"), ("endpoint", "/token/info"), ("status", "200")],
            .spanClose "auth.decode_token",
            .spanClose "auth.token_info"])
    | DecodeOutcome.expired =>
        (Except.error ⟨401, "Token expired"⟩,
         pre ++ decodePre ++
           [.spanClose "auth.decode_token",
            .setError "auth.token_info" "Token expired",
            .spanClose "auth.token_info"])
    | DecodeOutcome.invalid msg =>
        (Except.error ⟨401, "Invalid token"⟩,
         pre ++ decodePre ++
           [.spanClose "auth.decode_token",
            .setError "auth.token_info" ("Invalid token: " ++ msg),
            .spanClose "auth.token_info"])

end AuthSvc

namespace DbSvc

/-- One items-table row as the handlers read it: `data` is the value
after the `json.loads`-with-raw-string-fallback step (db.py lines
179-182), which is total — a parse failure falls back to the raw
string. -/
structure ItemRow where
  id : String
  data : JsonVal
  created_at : String
  updated_at : String

/-- The JSON object built from one row (db.py lines 188-193 and
236-241). -/
def itemRowJson (r : ItemRow) : JsonVal :=
  .obj [("id", .str r.id), ("data", r.data), ("created_at", .str r.created_at),
        ("updated_at", .str r.updated_at)]

/-- Request environment for `GET /retrieve/{item_id}` (db.py
`retrieve_data`): `queryResult` is the outcome of the SQL select — an
optional row, or a `sqlite3.Error` message. -/
structure RetrieveDataEnv where
  item_id : String
  authorization : Option String
  queryResult : Except String (Option ItemRow)

/-- Embedding of db.py lines 146-198, `retrieve_data`.  A sqlite error
is raised inside the `db.execute_select` span and caught outside it, so
the child span closes before the root span is marked; the 404 raise is
not a `sqlite3.Error` and propagates through the handler try. -/
def retrieve_data (env : RetrieveDataEnv) : Except HttpErr JsonVal × List TelemetryEvent :=
  let pre : List TelemetryEvent :=
    [.countObs "http_requests_total" 1 [("method", "GET"), ("endpoint", "/retrieve/{id}")],
     .countObs "db_operations_total" 1 [("operation", "select"), ("table", "items")],
     .spanOpen "db.retrieve_data",
     .setAttr "db.retrieve_data" "http.method" (.str "GET"),
     .setAttr "db.retrieve_data" "http.route" (.str "/retrieve/{item_id}"),
     .setAttr "db.retrieve_data" "db.operation" (.str "select"),
     .setAttr "db.retrieve_data" "db.table" (.str "items"),
     .setAttr "db.retrieve_data" "item.id" (.str env.item_id)]
  if truthy env.authorization = false then
    (Except.error ⟨401, "Missing authorization header"⟩,
     pre ++ [.setError "db.retrieve_data" "Missing authorization",
             .spanClose "db.retrieve_data"])
  else
    let innerPre : List TelemetryEvent := [.spanOpen "db.execute_select"]
    match env.queryResult with
    | Except.error e =>
        (Except.error ⟨500, "Database error: " ++ e⟩,
         pre ++ innerPre ++
           [.spanClose "db.execute_select",
            .setError "db.retrieve_data" ("Database error: " ++ e),
            .spanClose "db.retrieve_data"])
    | Except.ok none =>
        (Except.error ⟨404, "Item not found"⟩,
         pre ++ innerPre ++
           [.setAttr "db.execute_select" "db.rows_returned" (.num 0),
            .spanClose "db.execute_select",
            .setError "db.retrieve_data" "Item not found",
            .spanClose "db.retrieve_data"])
    | Except.ok (some row) =>
        (Except.ok (itemRowJson row),
         pre ++ innerPre ++
           [.setAttr "db.execute_select" "db.rows_returned" (.num 1),
            .spanClose "db.execute_select",
            .durObs "db_operation_duration_seconds"
              [("operation", "select"), ("table", "items")],
            .durObs "http_request_duration_seconds"
              [("method", "GET"), ("endpoint", "/retrieve/{id}"), ("status", "200")],
            .spanClose "db.retrieve_data"])

/-- Request environment for `GET /list` (db.py `list_items`): `limit`
is the query parameter (default 10), `queryResult` the outcome of the
SQL select. -/
structure ListItemsEnv where
  authorization : Option String
  limit : Int
  queryResult : Except String (List ItemRow)

/-- Embedding of db.py lines 200-253, `list_items`. -/
def list_items (env : ListItemsEnv) : Except HttpErr JsonVal × List TelemetryEvent :=
  let pre : List TelemetryEvent :=
    [.countObs "http_requests_total" 1 [("method", "GET"), ("endpoint", "/list")],
     .countObs "db_operations_total" 1 [("operation", "select"), ("table", "items")],
     .spanOpen "db.list_items",
     .setAttr "db.list_items" "http.method" (.str "GET"),
     .setAttr "db.list_items" "http.route" (.str "/list"),
     .setAttr "db.list_items" "db.operation" (.str "select"),
     .setAttr "db.list_items" "db.table" (.str "items"),
     .setAttr "db.list_items" "db.limit" (.num env.limit)]
  if truthy env.authorization = false then
    (Except.error ⟨401, "Missing authorization header"⟩,
     pre ++ [.setError "db.list_items" "Missing authorization",
             .spanClose "db.list_items"])
  else
    let innerPre : List TelemetryEvent := [.spanOpen "db.execute_select"]
    match env.queryResult with
    | Except.error e =>
        (Except.error ⟨500, "Database error: " ++ e⟩,
         pre ++ innerPre ++
           [.spanClose "db.execute_select",
            .setError "db.list_items" ("Database error: " ++ e),
            .spanClose "db.list_items"])
    | Except.ok rows =>
        (Except.ok (.obj [("items", .arr (rows.map itemRowJson)),
                          ("count", .num (Int.ofNat rows.length))]),
         pre ++ innerPre ++
           [.setAttr "db.execute_select" "db.rows_returned" (.num (Int.ofNat rows.length)),
            .spanClose "db.execute_select",
            .setAttr "db.list_items" "items.count" (.num (Int.ofNat rows.length)),
            .durObs "db_operation_duration_seconds"
              [("operation", "select"), ("table", "items")],
            .durObs "http_request_duration_seconds"
              [("method", "GET"), ("endpoint", "/list"), ("status", "200")],
            .spanClose "db.list_items"])

/-- Request environment for `DELETE /delete/{item_id}` (db.py
`delete_data`): `deleteResult` is the outcome of the SQL delete plus
commit — the affected row count, or a `sqlite3.Error` message. -/
structure DeleteDataEnv where
  item_id : String
  authorization : Option String
  deleteResult : Except String Nat

/-- Embedding of db.py lines 255-297, `delete_data`.  The rowcount-zero
404 is raised after the `db.execute_delete` span closed and is not a
`sqlite3.Error`, so it propagates through the handler try. -/
def delete_data (env : DeleteDataEnv) : Except HttpErr JsonVal × List TelemetryEvent :=
  let pre : List TelemetryEvent :=
    [.countObs "http_requests_total" 1 [("method", "DELETE"), ("endpoint", "/delete/{id}")],
     .countObs "db_operations_total" 1 [("operation", "delete"), ("table", "items")],
     .spanOpen "db.delete_data",
     .setAttr "db.delete_data" "http.method" (.str "DELETE"),
     .setAttr "db.delete_data" "http.route" (.str "/delete/{item_id}"),
     .setAttr "db.delete_data" "db.operation" (.str "delete"),
     .setAttr "db.delete_data" "db.table" (.str "items"),
     .setAttr "db.delete_data" "item.id" (.str env.item_id)]
  if truthy env.authorization = false then
    (Except.error ⟨401, "Missing authorization header"⟩,
     pre ++ [.setError "db.delete_data" "Missing authorization",
             .spanClose "db.delete_data"])
  else
    let innerPre : List TelemetryEvent := [.spanOpen "db.execute_delete"]
    match env.deleteResult with
    | Except.error e =>
        (Except.error ⟨500, "Database error: " ++ e⟩,
         pre ++ innerPre ++
           [.spanClose "db.execute_delete",
            .setError "db.delete_data" ("Database error: " ++ e),
            .spanClose "db.delete_data"])
    | Except.ok rc =>
        if rc = 0 then
          (Except.error ⟨404, "Item not found"⟩,
           pre ++ innerPre ++
             [.setAttr "db.execute_delete" "db.rows_affected" (.num (Int.ofNat rc)),
              .spanClose "db.execute_delete",
              .setError "db.delete_data" "Item not found",
              .spanClose "db.delete_data"])
        else
          (Except.ok (.obj [("id", .str env.item_id), ("status", .str "deleted")]),
           pre ++ innerPre ++
             [.setAttr "db.execute_delete" "db.rows_affected" (.num (Int.ofNat rc)),
              .spanClose "db.execute_delete",
              .durObs "db_operation_duration_seconds"
                [("operation", "delete"), ("table", "items")],
              .durObs "http_request_duration_seconds"
                [("method", "DELETE"), ("endpoint", "/delete/{id}"), ("status", "200")],
              .spanClose "db.delete_data"])

/-- Outcome of the user insert plus commit in `create_user`: success, a
`sqlite3.IntegrityError` (duplicate username), or another
`sqlite3.Error` with its message. -/
inductive InsertOutcome where
  | ok
  | integrityError
  | sqlError (msg : String)

/-- Request environment for `POST /user` (db.py `create_user`): the
parsed request dict, the insert outcome, and the
`datetime.utcnow().isoformat()` timestamp.  The handler signature
declares no authorization header. -/
structure CreateUserEnv where
  user_data : List (String × JsonVal)
  insertResult : InsertOutcome
  now : String

/-- Embedding of db.py lines 341-394, `create_user`.  Insert failures
are raised inside the `db.execute_insert` span and caught outside it,
so the child span closes before the root span is marked. -/
def create_user (env : CreateUserEnv) : Except HttpErr JsonVal × List TelemetryEvent :=
  let pre : List TelemetryEvent :=
    [.countObs "http_requests_total" 1 [("method", "POST"), ("endpoint", "/user")],
     .countObs "db_operations_total" 1 [("operation", "insert"), ("table", "users")],
     .spanOpen "db.create_user",
     .setAttr "db.create_user" "http.method" (.str "POST"),
     .setAttr "db.create_user" "http.route" (.str "/user"),
     .setAttr "db.create_user" "db.operation" (.str "insert"),
     .setAttr "db.create_user" "db.table" (.str "users")]
  let missingRes : Except HttpErr JsonVal × List TelemetryEvent :=
    (Except.error ⟨400, "Username and password required"⟩,
     pre ++ [.setError "db.create_user" "Missing username or password",
             .spanClose "db.create_user"])
  match jLookup env.user_data "username", jLookup env.user_data "password" with
  | some u, some p =>
      if pyTruthy u = false ∨ pyTruthy p = false then missingRes
      else
        let pre2 : List TelemetryEvent := pre ++
          [.setAttr "db.create_user" "user.username" u,
           .spanOpen "db.execute_insert"]
        match env.insertResult with
        | InsertOutcome.ok =>
            (Except.ok (.obj [("username", u), ("status", .str "created"),
                              ("created_at", .str env.now)]),
             pre2 ++
               [.setAttr "db.execute_insert" "db.rows_affected" (.num 1),
                .spanClose "db.execute_insert",
                .durObs "db_operation_duration_seconds"
                  [("operation", "insert"), ("table", "users")],
                .durObs "http_request_duration_seconds"
                  [("method", "POST"), ("endpoint", "/user"), ("status", "200")],
                .spanClose "db.create_user"])
        | InsertOutcome.integrityError =>
            (Except.error ⟨409, "User already exists"⟩,
             pre2 ++
               [.spanClose "db.execute_insert",
                .setError "db.create_user" "User already exists",
                .spanClose "db.create_user"])
        | InsertOutcome.sqlError e =>
            (Except.error ⟨500, "Database error: " ++ e⟩,
             pre2 ++
               [.spanClose "db.execute_insert",
                .setError "db.create_user" ("Database error: " ++ e),
                .spanClose "db.create_user"])
  | _, _ => missingRes

end DbSvc

/-! Observables over telemetry event lists. -/

/-- Simulate the task-local span stack over an event list: a span open
pushes its name, a span close must match the top of the stack (LIFO) and
pops it; any mismatched or unmatched close fails.  Returns the final
stack, or `none` on a violation. -/
def runSpanStack : List String → List TelemetryEvent → Option (List String)
  | stack, [] => some stack
  | stack, TelemetryEvent.spanOpen n :: rest => runSpanStack (n :: stack) rest
  | t :: stack, TelemetryEvent.spanClose n :: rest =>
      if n = t then runSpanStack stack rest else none
  | [], TelemetryEvent.spanClose _ :: _ => none
  | stack, TelemetryEvent.setError _ _ :: rest => runSpanStack stack rest
  | stack, TelemetryEvent.setAttr _ _ _ :: rest => runSpanStack stack rest
  | stack, TelemetryEvent.countObs _ _ _ :: rest => runSpanStack stack rest
  | stack, TelemetryEvent.durObs _ _ :: rest => runSpanStack stack rest
  | stack, TelemetryEvent.callOut _ _ _ :: rest => runSpanStack stack rest

/-- Every opened span is closed exactly once, in strict LIFO order, and
the request ends with an empty span stack. -/
def balancedLIFO (evts : List TelemetryEvent) : Prop :=
  runSpanStack [] evts = some []

/-- Number of span-open events. -/
def spanOpenCount (evts : List TelemetryEvent) : Nat :=
  evts.countP fun e => match e with | .spanOpen _ => true | _ => false

/-- Number of span-close events. -/
def spanCloseCount (evts : List TelemetryEvent) : Nat :=
  evts.countP fun e => match e with | .spanClose _ => true | _ => false

/-- Names of the spans opened, in order. -/
def openedSpans (evts : List TelemetryEvent) : List String :=
  evts.filterMap fun e => match e with | .spanOpen n => some n | _ => none

/-- Counter observations recorded, in order, with instrument, delta and
tag set. -/
def countObsList (evts : List TelemetryEvent) :
    List (String × Nat × List (String × String)) :=
  evts.filterMap fun e => match e with
    | .countObs i d t => some (i, d, t)
    | _ => none

/-- Histogram (duration) observations recorded, in order, with
instrument and tag set. -/
def durObsList (evts : List TelemetryEvent) : List (String × List (String × String)) :=
  evts.filterMap fun e => match e with
    | .durObs i t => some (i, t)
    | _ => none

/-- Outbound call attempts, in order: base url, path, timeout seconds. -/
def callOutList (evts : List TelemetryEvent) : List (String × String × Nat) :=
  evts.filterMap fun e => match e with
    | .callOut b p t => some (b, p, t)
    | _ => none

/-- Number of outbound call attempts to the given collaborator base
url. -/
def callsTo (base : String) (evts : List TelemetryEvent) : Nat :=
  evts.countP fun e => match e with | .callOut b _ _ => b == base | _ => false

/-- The handler explicitly set the named span to error status with the
given message. -/
def marksError (evts : List TelemetryEvent) (span msg : String) : Prop :=
  TelemetryEvent.setError span msg ∈ evts

/-- Per-request metric discipline actually implemented by every
app-service handler: exactly one counter observation on
`http_requests_total`, tagged with method and endpoint only (recorded at
handler entry, before the root span opens), and exactly one duration
observation on `http_request_duration_seconds` tagged with method,
endpoint and status "200" when the handler returns success — error
terminal states record no duration observation. -/
def metricDiscipline (m e : String)
    (out : Except HttpErr JsonVal × List TelemetryEvent) : Prop :=
  countObsList out.2 = [("http_requests_total", 1, [("method", m), ("endpoint", e)])] ∧
  durObsList out.2 =
    (match out.1 with
     | Except.ok _ =>
         [("http_request_duration_seconds",
           [("method", m), ("endpoint", e), ("status", "200")])]
     | Except.error _ => [])

/-- The store call for one seed item fails: either the db service is
unreachable (connection failure / timeout) or it answers with a non-200
status. -/
def storeCallFails : HttpOutcome → Prop
  | HttpOutcome.reqError => True
  | HttpOutcome.resp s _ => s ≠ 200

namespace Propagator

/-- Modelled from the spec: the trace context carried by the current
span — "(trace-id, parent-span-id [+ sampling flag]) carried in a single
outbound header" (spec section 3); the serialization code itself lives in
the OpenTelemetry library wired up by otel_instrumentation.py, not in
this repository. -/
structure SpanContext where
  traceId : Nat
  spanId : Nat
  sampled : Bool

/-- Modelled from the spec: the parent context recovered from an inbound
header — trace-id, parent-span-id and sampled flag. -/
structure ParentContext where
  traceId : Nat
  parentSpanId : Nat
  sampled : Bool
deriving DecidableEq

/-- Modelled from the spec: lowercase hex digit for a value below 16. -/
def hexDigitChar (n : Nat) : Char :=
  if n < 10 then Char.ofNat (48 + n) else Char.ofNat (87 + n)

/-- Modelled from the spec: big-endian fixed-width lowercase hex
rendering of `n` to `w` digits. -/
def toHexFixed : Nat → Nat → List Char
  | _, 0 => []
  | n, w + 1 => toHexFixed (n / 16) w ++ [hexDigitChar (n % 16)]

/-- Modelled from the spec: numeric value of one hex digit character. -/
def hexVal (c : Char) : Option Nat :=
  if 48 ≤ c.toNat ∧ c.toNat ≤ 57 then some (c.toNat - 48)
  else if 97 ≤ c.toNat ∧ c.toNat ≤ 102 then some (c.toNat - 87)
  else none

/-- Modelled from the spec: accumulating big-endian hex parser; fails on
the first non-hex character. -/
def parseHexAux : Nat → List Char → Option Nat
  | acc, [] => some acc
  | acc, c :: cs =>
      match hexVal c with
      | some v => parseHexAux (acc * 16 + v) cs
      | none => none

/-- Modelled from the spec: parse a hex digit string. -/
def parseHex (cs : List Char) : Option Nat := parseHexAux 0 cs

/-- Modelled from the spec: split a header value at dash separators. -/
def splitDash : List Char → List (List Char)
  | [] => [[]]
  | c :: rest =>
      if c = '-' then [] :: splitDash rest
      else
        match splitDash rest with
        | [] => [[c]]
        | g :: gs => (c :: g) :: gs

/-- Modelled from the spec: `inject(currentSpan) -> headerValue`
serializes (trace-id, current span-id, sampled-flag) into one header
value (spec section 4.2), in the W3C traceparent layout used by the
library propagator: version "00", 32 hex digit trace id, 16 hex digit
span id, 2 hex digit flags, dash-separated. -/
def inject (ctx : SpanContext) : List Char :=
  '0' :: '0' :: '-' ::
    (toHexFixed ctx.traceId 32 ++ '-' ::
      (toHexFixed ctx.spanId 16 ++ '-' ::
        (if ctx.sampled then ['0', '1'] else ['0', '0'])))

/-- Modelled from the spec: parse one traceparent-style header value;
any deviation from the four-group layout with the expected widths and
hex content yields `none`. -/
def parseTraceparent (cs : List Char) : Option ParentContext :=
  match splitDash cs with
  | [ver, tid, sid, flags] =>
      if ver = ['0', '0'] ∧ tid.length = 32 ∧ sid.length = 16 ∧ flags.length = 2 then
        match parseHex tid, parseHex sid, parseHex flags with
        | some t, some s, some fl => some ⟨t, s, fl % 2 == 1⟩
        | _, _, _ => none
      else none
  | _ => none

/-- Modelled from the spec: `extract(headerValue) -> ParentContext`;
"malformed or missing input yields no parent (never an error)" (spec
section 4.2).  The function is total: extraction cannot raise. -/
def extract : Option (List Char) → Option ParentContext
  | none => none
  | some cs => parseTraceparent cs

/-- Modelled from the spec: decidable well-formedness of a header value
(four dash-separated groups, version "00", 32/16/2 hex digits). -/
def headerWellFormed (cs : List Char) : Bool :=
  match splitDash cs with
  | [ver, tid, sid, flags] =>
      decide (ver = ['0', '0']) &&
      decide (tid.length = 32) && tid.all (fun c => (hexVal c).isSome) &&
      decide (sid.length = 16) && sid.all (fun c => (hexVal c).isSome) &&
      decide (flags.length = 2) && flags.all (fun c => (hexVal c).isSome)
  | _ => false

/-- Modelled from the spec: how a service picks the trace identity of
its root span — "if absent/malformed on inbound, a new trace-id is
minted (the service becomes the trace root)" (spec section 3): with no
parent the freshly minted trace id is used and the span has no parent;
with a parent the propagated trace id and parent span id are used. -/
def rootSpanTrace (parent : Option ParentContext) (freshTraceId : Nat) : Nat × Option Nat :=
  match parent with
  | none => (freshTraceId, none)
  | some p => (p.traceId, some p.parentSpanId)

end Propagator

/-! Generic lemmas about the span-stack simulation. -/

theorem runSpanStack_append (xs : List TelemetryEvent) :
    ∀ (stack : List String) (ys : List TelemetryEvent),
    runSpanStack stack (xs ++ ys) =
      (runSpanStack stack xs).bind fun st => runSpanStack st ys := by
  induction xs with
  | nil => intro stack ys; simp [runSpanStack]
  | cons e rest ih =>
      intro stack ys
      cases e with
      | spanOpen n => simpa [runSpanStack] using ih (n :: stack) ys
      | spanClose n =>
          cases stack with
          | nil => simp [runSpanStack]
          | cons t st =>
              by_cases h : n = t
              · simpa [runSpanStack, h] using ih st ys
              · simp [runSpanStack, h]
      | setError a b => simpa [runSpanStack] using ih stack ys
      | setAttr a b c => simpa [runSpanStack] using ih stack ys
      | countObs a b c => simpa [runSpanStack] using ih stack ys
      | durObs a b => simpa [runSpanStack] using ih stack ys
      | callOut a b c => simpa [runSpanStack] using ih stack ys

/-- A successful stack simulation relates the open and close counts:
pops equal pushes plus the net stack shrinkage. -/
theorem runSpanStack_counts (evts : List TelemetryEvent) :
    ∀ (stack out : List String), runSpanStack stack evts = some out →
    stack.length + spanOpenCount evts = spanCloseCount evts + out.length := by
  induction evts with
  | nil =>
      intro stack out h
      simp only [runSpanStack] at h
      cases h
      simp [spanOpenCount, spanCloseCount]
  | cons e rest ih =>
      intro stack out h
      cases e with
      | spanOpen n =>
          have := ih (n :: stack) out (by simpa [runSpanStack] using h)
          simp only [spanOpenCount, spanCloseCount, List.countP_cons] at this ⊢
          simp at this ⊢
          omega
      | spanClose n =>
          cases stack with
          | nil => simp [runSpanStack] at h
          | cons t st =>
              by_cases hn : n = t
              · have := ih st out (by simpa [runSpanStack, hn] using h)
                simp only [spanOpenCount, spanCloseCount, List.countP_cons] at this ⊢
                simp at this ⊢
                omega
              · simp [runSpanStack, hn] at h
      | setError a b =>
          have := ih stack out (by simpa [runSpanStack] using h)
          simp only [spanOpenCount, spanCloseCount, List.countP_cons] at this ⊢
          simpa using this
      | setAttr a b c =>
          have := ih stack out (by simpa [runSpanStack] using h)
          simp only [spanOpenCount, spanCloseCount, List.countP_cons] at this ⊢
          simpa using this
      | countObs a b c =>
          have := ih stack out (by simpa [runSpanStack] using h)
          simp only [spanOpenCount, spanCloseCount, List.countP_cons] at this ⊢
          simpa using this
      | durObs a b =>
          have := ih stack out (by simpa [runSpanStack] using h)
          simp only [spanOpenCount, spanCloseCount, List.countP_cons] at this ⊢
          simpa using this
      | callOut a b c =>
          have := ih stack out (by simpa [runSpanStack] using h)
          simp only [spanOpenCount, spanCloseCount, List.countP_cons] at this ⊢
          simpa using this

/-- Balanced LIFO telemetry has equally many opens and closes. -/
theorem balancedLIFO_counts {evts : List TelemetryEvent}
    (h : balancedLIFO evts) : spanOpenCount evts = spanCloseCount evts := by
  have := runSpanStack_counts evts [] [] h
  simpa using this

/-! Segment lemmas: each lexical block of a handler leaves the span
stack exactly as it found it and records no metric observation. -/

theorem validateTokenBlock_stack (root : String) (r : HttpOutcome) (st : List String) :
    runSpanStack st (AppSvc.validateTokenBlock root r).2 = some st := by
  cases r with
  | reqError => simp [AppSvc.validateTokenBlock, runSpanStack]
  | resp s b =>
      by_cases h : s = 200 <;> simp [AppSvc.validateTokenBlock, h, runSpanStack]

theorem validateTokenBlock_countObs (root : String) (r : HttpOutcome) :
    countObsList (AppSvc.validateTokenBlock root r).2 = [] := by
  cases r with
  | reqError => simp [AppSvc.validateTokenBlock, countObsList]
  | resp s b =>
      by_cases h : s = 200 <;> simp [AppSvc.validateTokenBlock, h, countObsList]

theorem validateTokenBlock_durObs (root : String) (r : HttpOutcome) :
    durObsList (AppSvc.validateTokenBlock root r).2 = [] := by
  cases r with
  | reqError => simp [AppSvc.validateTokenBlock, durObsList]
  | resp s b =>
      by_cases h : s = 200 <;> simp [AppSvc.validateTokenBlock, h, durObsList]

theorem validateTokenBlock_callOuts (root : String) (r : HttpOutcome) :
    callOutList (AppSvc.validateTokenBlock root r).2 = [(AUTH_SERVICE_URL, "/validate", 5)] := by
  cases r with
  | reqError => simp [AppSvc.validateTokenBlock, callOutList]
  | resp s b =>
      by_cases h : s = 200 <;> simp [AppSvc.validateTokenBlock, h, callOutList]

theorem validateTokenBlock_opened (root : String) (r : HttpOutcome) :
    openedSpans (AppSvc.validateTokenBlock root r).2 = ["app.validate_token"] := by
  cases r with
  | reqError => simp [AppSvc.validateTokenBlock, openedSpans]
  | resp s b =>
      by_cases h : s = 200 <;> simp [AppSvc.validateTokenBlock, h, openedSpans]

theorem seedItemStep_stack (idx : Nat) (o : HttpOutcome) (st : List String) :
    runSpanStack st (AppSvc.seedItemStep idx o).2 = some st := by
  cases o with
  | reqError => simp [AppSvc.seedItemStep, runSpanStack]
  | resp s b =>
      by_cases h : s = 200
      · cases hj : jGet b "id" <;>
          simp [AppSvc.seedItemStep, h, hj, runSpanStack]
      · simp [AppSvc.seedItemStep, h, runSpanStack]

theorem seedItemStep_countObs (idx : Nat) (o : HttpOutcome) :
    countObsList (AppSvc.seedItemStep idx o).2 = [] := by
  cases o with
  | reqError => simp [AppSvc.seedItemStep, countObsList]
  | resp s b =>
      by_cases h : s = 200
      · cases hj : jGet b "id" <;>
          simp [AppSvc.seedItemStep, h, hj, countObsList]
      · simp [AppSvc.seedItemStep, h, countObsList]

theorem seedItemStep_durObs (idx : Nat) (o : HttpOutcome) :
    durObsList (AppSvc.seedItemStep idx o).2 = [] := by
  cases o with
  | reqError => simp [AppSvc.seedItemStep, durObsList]
  | resp s b =>
      by_cases h : s = 200
      · cases hj : jGet b "id" <;>
          simp [AppSvc.seedItemStep, h, hj, durObsList]
      · simp [AppSvc.seedItemStep, h, durObsList]

theorem seedLoop_stack (items : List JsonVal) :
    ∀ (idx : Nat) (f : Nat → HttpOutcome) (st : List String),
    runSpanStack st (AppSvc.seedLoop idx items f).2.2 = some st := by
  induction items with
  | nil => intro idx f st; simp [AppSvc.seedLoop, runSpanStack]
  | cons item rest ih =>
      intro idx f st
      rcases hs : AppSvc.seedItemStep idx (f idx) with ⟨step, evs⟩
      have hevs : runSpanStack st evs = some st := by
        have := seedItemStep_stack idx (f idx) st
        rw [hs] at this; exact this
      cases step with
      | crashed => simp [AppSvc.seedLoop, hs, hevs]
      | skipped =>
          simp [AppSvc.seedLoop, hs, runSpanStack_append, hevs, ih (idx + 1) f st]
      | stored v =>
          simp [AppSvc.seedLoop, hs, runSpanStack_append, hevs, ih (idx + 1) f st]

theorem seedLoop_countObs (items : List JsonVal) :
    ∀ (idx : Nat) (f : Nat → HttpOutcome),
    countObsList (AppSvc.seedLoop idx items f).2.2 = [] := by
  induction items with
  | nil => intro idx f; simp [AppSvc.seedLoop, countObsList]
  | cons item rest ih =>
      intro idx f
      rcases hs : AppSvc.seedItemStep idx (f idx) with ⟨step, evs⟩
      have hevs : countObsList evs = [] := by
        have := seedItemStep_countObs idx (f idx)
        rw [hs] at this; exact this
      cases step with
      | crashed => simp [AppSvc.seedLoop, hs, hevs]
      | skipped => simp [AppSvc.seedLoop, hs, countObsList, List.filterMap_append] at hevs ⊢
                   exact ⟨hevs, by simpa [countObsList] using ih (idx + 1) f⟩
      | stored v => simp [AppSvc.seedLoop, hs, countObsList, List.filterMap_append] at hevs ⊢
                    exact ⟨hevs, by simpa [countObsList] using ih (idx + 1) f⟩

theorem seedLoop_durObs (items : List JsonVal) :
    ∀ (idx : Nat) (f : Nat → HttpOutcome),
    durObsList (AppSvc.seedLoop idx items f).2.2 = [] := by
  induction items with
  | nil => intro idx f; simp [AppSvc.seedLoop, durObsList]
  | cons item rest ih =>
      intro idx f
      rcases hs : AppSvc.seedItemStep idx (f idx) with ⟨step, evs⟩
      have hevs : durObsList evs = [] := by
        have := seedItemStep_durObs idx (f idx)
        rw [hs] at this; exact this
      cases step with
      | crashed => simp [AppSvc.seedLoop, hs, hevs]
      | skipped => simp [AppSvc.seedLoop, hs, durObsList, List.filterMap_append] at hevs ⊢
                   exact ⟨hevs, by simpa [durObsList] using ih (idx + 1) f⟩
      | stored v => simp [AppSvc.seedLoop, hs, durObsList, List.filterMap_append] at hevs ⊢
                    exact ⟨hevs, by simpa [durObsList] using ih (idx + 1) f⟩

/-! Per-handler span-stack lemmas: every embedded handler emits balanced
LIFO telemetry on every path. -/

theorem create_data_stack (env : AppSvc.CreateDataEnv) :
    balancedLIFO (AppSvc.create_data env).2 := by
  rcases env with ⟨d, auth, aresp, dresp⟩
  unfold balancedLIFO
  cases hauth : truthy auth
  · simp [AppSvc.create_data, hauth, runSpanStack]
  · rcases hv : AppSvc.validateTokenBlock "app.create_data" aresp with ⟨vres, vevs⟩
    have hst : ∀ st, runSpanStack st vevs = some st := fun st => by
      have := validateTokenBlock_stack "app.create_data" aresp st
      rw [hv] at this; exact this
    cases vres with
    | error e =>
        simp [AppSvc.create_data, hauth, hv, runSpanStack_append, hst, runSpanStack]
    | ok u =>
        cases dresp with
        | reqError =>
            simp [AppSvc.create_data, hauth, hv, runSpanStack_append, hst, runSpanStack]
        | resp s body =>
            by_cases hs : s = 200
            · cases body <;>
                simp [AppSvc.create_data, hauth, hv, hs, runSpanStack_append, hst, runSpanStack]
            · simp [AppSvc.create_data, hauth, hv, hs, runSpanStack_append, hst, runSpanStack]

theorem get_data_stack (env : AppSvc.GetDataEnv) :
    balancedLIFO (AppSvc.get_data env).2 := by
  rcases env with ⟨item, auth, aresp, dresp⟩
  unfold balancedLIFO
  cases hauth : truthy auth
  · simp [AppSvc.get_data, hauth, runSpanStack]
  · rcases hv : AppSvc.validateTokenBlock "app.get_data" aresp with ⟨vres, vevs⟩
    have hst : ∀ st, runSpanStack st vevs = some st := fun st => by
      have := validateTokenBlock_stack "app.get_data" aresp st
      rw [hv] at this; exact this
    cases vres with
    | error e =>
        simp [AppSvc.get_data, hauth, hv, runSpanStack_append, hst, runSpanStack]
    | ok u =>
        cases dresp with
        | reqError =>
            simp [AppSvc.get_data, hauth, hv, runSpanStack_append, hst, runSpanStack]
        | resp s body =>
            by_cases h4 : s = 404
            · simp [AppSvc.get_data, hauth, hv, h4, runSpanStack_append, hst, runSpanStack]
            · by_cases hs : s = 200 <;>
                simp [AppSvc.get_data, hauth, hv, h4, hs, runSpanStack_append, hst, runSpanStack]

theorem get_preset_data_stack (env : AppSvc.GetPresetEnv) :
    balancedLIFO (AppSvc.get_preset_data env).2 := by
  rcases env with ⟨pid, auth, aresp⟩
  unfold balancedLIFO
  cases hauth : truthy auth
  · simp [AppSvc.get_preset_data, hauth, runSpanStack]
  · rcases hv : AppSvc.validateTokenBlock "app.get_preset" aresp with ⟨vres, vevs⟩
    have hst : ∀ st, runSpanStack st vevs = some st := fun st => by
      have := validateTokenBlock_stack "app.get_preset" aresp st
      rw [hv] at this; exact this
    cases vres with
    | error e =>
        simp [AppSvc.get_preset_data, hauth, hv, runSpanStack_append, hst, runSpanStack]
    | ok u =>
        cases hp : jLookup AppSvc.presetData pid <;>
          simp [AppSvc.get_preset_data, hauth, hv, hp, runSpanStack_append, hst, runSpanStack]

theorem list_presets_stack (env : AppSvc.ListPresetsEnv) :
    balancedLIFO (AppSvc.list_presets env).2 := by
  rcases env with ⟨auth, aresp⟩
  unfold balancedLIFO
  cases hauth : truthy auth
  · simp [AppSvc.list_presets, hauth, runSpanStack]
  · rcases hv : AppSvc.validateTokenBlock "app.list_presets" aresp with ⟨vres, vevs⟩
    have hst : ∀ st, runSpanStack st vevs = some st := fun st => by
      have := validateTokenBlock_stack "app.list_presets" aresp st
      rw [hv] at this; exact this
    cases vres with
    | error e =>
        simp [AppSvc.list_presets, hauth, hv, runSpanStack_append, hst, runSpanStack]
    | ok u =>
        simp [AppSvc.list_presets, hauth, hv, runSpanStack_append, hst, runSpanStack]

theorem seed_preset_data_stack (env : AppSvc.SeedEnv) :
    balancedLIFO (AppSvc.seed_preset_data env).2 := by
  rcases env with ⟨auth, aresp, store⟩
  unfold balancedLIFO
  cases hauth : truthy auth
  · simp [AppSvc.seed_preset_data, hauth, runSpanStack]
  · rcases hv : AppSvc.validateTokenBlock "app.seed_data" aresp with ⟨vres, vevs⟩
    have hst : ∀ st, runSpanStack st vevs = some st := fun st => by
      have := validateTokenBlock_stack "app.seed_data" aresp st
      rw [hv] at this; exact this
    cases vres with
    | error e =>
        simp [AppSvc.seed_preset_data, hauth, hv, runSpanStack_append, hst, runSpanStack]
    | ok u =>
        rcases hl : AppSvc.seedLoop 0 AppSvc.seedItems store with ⟨done, ids, loopEvs⟩
        have hloop : ∀ st, runSpanStack st loopEvs = some st := fun st => by
          have := seedLoop_stack AppSvc.seedItems 0 store st
          rw [hl] at this; exact this
        cases done <;>
          simp [AppSvc.seed_preset_data, hauth, hv, hl, runSpanStack_append, hst, hloop,
            runSpanStack]

theorem store_data_stack (env : DbSvc.StoreDataEnv) :
    balancedLIFO (DbSvc.store_data env).2 := by
  rcases env with ⟨d, auth, itemId, now, ins⟩
  unfold balancedLIFO
  cases hauth : truthy auth
  · simp [DbSvc.store_data, hauth, runSpanStack]
  · cases ins <;> simp [DbSvc.store_data, hauth, runSpanStack]

theorem get_user_stack (env : DbSvc.GetUserEnv) :
    balancedLIFO (DbSvc.get_user env).2 := by
  rcases env with ⟨uname, auth, q⟩
  unfold balancedLIFO
  rcases q with e | (_ | ⟨u, p⟩) <;> simp [DbSvc.get_user, runSpanStack]

theorem validate_token_stack (env : AuthSvc.ValidateEnv) :
    balancedLIFO (AuthSvc.validate_token env).2 := by
  rcases env with ⟨auth, dec⟩
  unfold balancedLIFO
  cases hauth : truthy auth
  · simp [AuthSvc.validate_token, hauth, runSpanStack]
  · cases dec <;> simp [AuthSvc.validate_token, hauth, runSpanStack]

theorem login_stack (env : AuthSvc.LoginEnv) :
    balancedLIFO (AuthSvc.login env).2 := by
  rcases env with ⟨creds, dbResp, token⟩
  unfold balancedLIFO
  cases hu : jLookup creds "username" with
  | none =>
      cases hp : jLookup creds "password" <;>
        simp [AuthSvc.login, hu, hp, runSpanStack]
  | some u =>
      cases hp : jLookup creds "password" with
      | none => simp [AuthSvc.login, hu, hp, runSpanStack]
      | some p =>
          by_cases htr : pyTruthy u = false ∨ pyTruthy p = false
          · simp [AuthSvc.login, hu, hp, htr, runSpanStack]
          · cases dbResp with
            | reqError => simp [AuthSvc.login, hu, hp, htr, runSpanStack]
            | resp s body =>
                by_cases hs : s = 200
                · cases body with
                  | obj fields =>
                      cases hpw : jLookup fields "password" with
                      | none => simp [AuthSvc.login, hu, hp, htr, hs, hpw, runSpanStack]
                      | some v =>
                          cases hje : jEq v p <;>
                            simp [AuthSvc.login, hu, hp, htr, hs, hpw, hje, runSpanStack]
                  | null => simp [AuthSvc.login, hu, hp, htr, hs, runSpanStack]
                  | str a => simp [AuthSvc.login, hu, hp, htr, hs, runSpanStack]
                  | num a => simp [AuthSvc.login, hu, hp, htr, hs, runSpanStack]
                  | bool a => simp [AuthSvc.login, hu, hp, htr, hs, runSpanStack]
                  | arr a => simp [AuthSvc.login, hu, hp, htr, hs, runSpanStack]
                · simp [AuthSvc.login, hu, hp, htr, hs, runSpanStack]

theorem token_info_stack (env : AuthSvc.TokenInfoEnv) :
    balancedLIFO (AuthSvc.token_info env).2 := by
  rcases env with ⟨auth, dec⟩
  unfold balancedLIFO
  cases hauth : truthy auth
  · simp [AuthSvc.token_info, hauth, runSpanStack]
  · cases dec <;> simp [AuthSvc.token_info, hauth, runSpanStack]

theorem retrieve_data_stack (env : DbSvc.RetrieveDataEnv) :
    balancedLIFO (DbSvc.retrieve_data env).2 := by
  rcases env with ⟨item, auth, q⟩
  unfold balancedLIFO
  cases hauth : truthy auth
  · simp [DbSvc.retrieve_data, hauth, runSpanStack]
  · rcases q with e | (_ | ⟨row⟩) <;> simp [DbSvc.retrieve_data, hauth, runSpanStack]

theorem list_items_stack (env : DbSvc.ListItemsEnv) :
    balancedLIFO (DbSvc.list_items env).2 := by
  rcases env with ⟨auth, limit, q⟩
  unfold balancedLIFO
  cases hauth : truthy auth
  · simp [DbSvc.list_items, hauth, runSpanStack]
  · rcases q with e | rows <;> simp [DbSvc.list_items, hauth, runSpanStack]

theorem delete_data_stack (env : DbSvc.DeleteDataEnv) :
    balancedLIFO (DbSvc.delete_data env).2 := by
  rcases env with ⟨item, auth, d⟩
  unfold balancedLIFO
  cases hauth : truthy auth
  · simp [DbSvc.delete_data, hauth, runSpanStack]
  · rcases d with e | rc
    · simp [DbSvc.delete_data, hauth, runSpanStack]
    · by_cases hrc : rc = 0 <;> simp [DbSvc.delete_data, hauth, hrc, runSpanStack]

theorem create_user_stack (env : DbSvc.CreateUserEnv) :
    balancedLIFO (DbSvc.create_user env).2 := by
  rcases env with ⟨ud, ins, now⟩
  unfold balancedLIFO
  cases hu : jLookup ud "username" with
  | none =>
      cases hp : jLookup ud "password" <;>
        simp [DbSvc.create_user, hu, hp, runSpanStack]
  | some u =>
      cases hp : jLookup ud "password" with
      | none => simp [DbSvc.create_user, hu, hp, runSpanStack]
      | some p =>
          by_cases htr : pyTruthy u = false ∨ pyTruthy p = false
          · simp [DbSvc.create_user, hu, hp, htr, runSpanStack]
          · cases ins <;> simp [DbSvc.create_user, hu, hp, htr, runSpanStack]

/-- C3: for every request to any handler of the three services that
opens spans (the five app-service handlers; the db-service store_data,
retrieve_data, list_items, delete_data, get_user and create_user
handlers; and the auth-service login, validate_token and token_info
handlers), on every exit path the emitted telemetry drives the span
stack from empty back to empty with every close matching the most
recent open (strict LIFO, no leaked spans), and consequently the number
of span-open events equals the number of span-close events. -/
theorem C3_spans_balanced_lifo :
    (∀ e : AppSvc.CreateDataEnv, balancedLIFO (AppSvc.create_data e).2 ∧
       spanOpenCount (AppSvc.create_data e).2 = spanCloseCount (AppSvc.create_data e).2) ∧
    (∀ e : AppSvc.GetDataEnv, balancedLIFO (AppSvc.get_data e).2 ∧
       spanOpenCount (AppSvc.get_data e).2 = spanCloseCount (AppSvc.get_data e).2) ∧
    (∀ e : AppSvc.GetPresetEnv, balancedLIFO (AppSvc.get_preset_data e).2 ∧
       spanOpenCount (AppSvc.get_preset_data e).2 = spanCloseCount (AppSvc.get_preset_data e).2) ∧
    (∀ e : AppSvc.ListPresetsEnv, balancedLIFO (AppSvc.list_presets e).2 ∧
       spanOpenCount (AppSvc.list_presets e).2 = spanCloseCount (AppSvc.list_presets e).2) ∧
    (∀ e : AppSvc.SeedEnv, balancedLIFO (AppSvc.seed_preset_data e).2 ∧
       spanOpenCount (AppSvc.seed_preset_data e).2 = spanCloseCount (AppSvc.seed_preset_data e).2) ∧
    (∀ e : DbSvc.StoreDataEnv, balancedLIFO (DbSvc.store_data e).2 ∧
       spanOpenCount (DbSvc.store_data e).2 = spanCloseCount (DbSvc.store_data e).2) ∧
    (∀ e : DbSvc.RetrieveDataEnv, balancedLIFO (DbSvc.retrieve_data e).2 ∧
       spanOpenCount (DbSvc.retrieve_data e).2 = spanCloseCount (DbSvc.retrieve_data e).2) ∧
    (∀ e : DbSvc.ListItemsEnv, balancedLIFO (DbSvc.list_items e).2 ∧
       spanOpenCount (DbSvc.list_items e).2 = spanCloseCount (DbSvc.list_items e).2) ∧
    (∀ e : DbSvc.DeleteDataEnv, balancedLIFO (DbSvc.delete_data e).2 ∧
       spanOpenCount (DbSvc.delete_data e).2 = spanCloseCount (DbSvc.delete_data e).2) ∧
    (∀ e : DbSvc.GetUserEnv, balancedLIFO (DbSvc.get_user e).2 ∧
       spanOpenCount (DbSvc.get_user e).2 = spanCloseCount (DbSvc.get_user e).2) ∧
    (∀ e : DbSvc.CreateUserEnv, balancedLIFO (DbSvc.create_user e).2 ∧
       spanOpenCount (DbSvc.create_user e).2 = spanCloseCount (DbSvc.create_user e).2) ∧
    (∀ e : AuthSvc.LoginEnv, balancedLIFO (AuthSvc.login e).2 ∧
       spanOpenCount (AuthSvc.login e).2 = spanCloseCount (AuthSvc.login e).2) ∧
    (∀ e : AuthSvc.ValidateEnv, balancedLIFO (AuthSvc.validate_token e).2 ∧
       spanOpenCount (AuthSvc.validate_token e).2 = spanCloseCount (AuthSvc.validate_token e).2) ∧
    (∀ e : AuthSvc.TokenInfoEnv, balancedLIFO (AuthSvc.token_info e).2 ∧
       spanOpenCount (AuthSvc.token_info e).2 = spanCloseCount (AuthSvc.token_info e).2) :=
  ⟨fun e => ⟨create_data_stack e, balancedLIFO_counts (create_data_stack e)⟩,
   fun e => ⟨get_data_stack e, balancedLIFO_counts (get_data_stack e)⟩,
   fun e => ⟨get_preset_data_stack e, balancedLIFO_counts (get_preset_data_stack e)⟩,
   fun e => ⟨list_presets_stack e, balancedLIFO_counts (list_presets_stack e)⟩,
   fun e => ⟨seed_preset_data_stack e, balancedLIFO_counts (seed_preset_data_stack e)⟩,
   fun e => ⟨store_data_stack e, balancedLIFO_counts (store_data_stack e)⟩,
   fun e => ⟨retrieve_data_stack e, balancedLIFO_counts (retrieve_data_stack e)⟩,
   fun e => ⟨list_items_stack e, balancedLIFO_counts (list_items_stack e)⟩,
   fun e => ⟨delete_data_stack e, balancedLIFO_counts (delete_data_stack e)⟩,
   fun e => ⟨get_user_stack e, balancedLIFO_counts (get_user_stack e)⟩,
   fun e => ⟨create_user_stack e, balancedLIFO_counts (create_user_stack e)⟩,
   fun e => ⟨login_stack e, balancedLIFO_counts (login_stack e)⟩,
   fun e => ⟨validate_token_stack e, balancedLIFO_counts (validate_token_stack e)⟩,
   fun e => ⟨token_info_stack e, balancedLIFO_counts (token_info_stack e)⟩⟩

/-! Per-handler metric lemmas. -/

theorem create_data_metrics (env : AppSvc.CreateDataEnv) :
    metricDiscipline "POST" "/api/data" (AppSvc.create_data env) := by
  rcases env with ⟨d, auth, aresp, dresp⟩
  cases hauth : truthy auth
  · simp [AppSvc.create_data, hauth, metricDiscipline, countObsList, durObsList]
  · rcases hv : AppSvc.validateTokenBlock "app.create_data" aresp with ⟨vres, vevs⟩
    have hc : countObsList vevs = [] := by
      have := validateTokenBlock_countObs "app.create_data" aresp
      rw [hv] at this; exact this
    have hd : durObsList vevs = [] := by
      have := validateTokenBlock_durObs "app.create_data" aresp
      rw [hv] at this; exact this
    cases vres with
    | error e =>
        constructor <;>
          simp_all [AppSvc.create_data, hauth, hv, metricDiscipline, countObsList,
            durObsList, List.filterMap_append]
    | ok u =>
        cases dresp with
        | reqError =>
            constructor <;>
              simp_all [AppSvc.create_data, hauth, hv, metricDiscipline, countObsList,
                durObsList, List.filterMap_append]
        | resp s body =>
            by_cases hs : s = 200
            · cases body <;> constructor <;>
                simp_all [AppSvc.create_data, hauth, hv, hs, metricDiscipline, countObsList,
                  durObsList, List.filterMap_append]
            · constructor <;>
                simp_all [AppSvc.create_data, hauth, hv, hs, metricDiscipline, countObsList,
                  durObsList, List.filterMap_append]

theorem get_data_metrics (env : AppSvc.GetDataEnv) :
    metricDiscipline "GET" "/api/data/{id}" (AppSvc.get_data env) := by
  rcases env with ⟨item, auth, aresp, dresp⟩
  cases hauth : truthy auth
  · simp [AppSvc.get_data, hauth, metricDiscipline, countObsList, durObsList]
  · rcases hv : AppSvc.validateTokenBlock "app.get_data" aresp with ⟨vres, vevs⟩
    have hc : countObsList vevs = [] := by
      have := validateTokenBlock_countObs "app.get_data" aresp
      rw [hv] at this; exact this
    have hd : durObsList vevs = [] := by
      have := validateTokenBlock_durObs "app.get_data" aresp
      rw [hv] at this; exact this
    cases vres with
    | error e =>
        constructor <;>
          simp_all [AppSvc.get_data, hauth, hv, metricDiscipline, countObsList,
            durObsList, List.filterMap_append]
    | ok u =>
        cases dresp with
        | reqError =>
            constructor <;>
              simp_all [AppSvc.get_data, hauth, hv, metricDiscipline, countObsList,
                durObsList, List.filterMap_append]
        | resp s body =>
            by_cases h4 : s = 404
            · constructor <;>
                simp_all [AppSvc.get_data, hauth, hv, h4, metricDiscipline, countObsList,
                  durObsList, List.filterMap_append]
            · by_cases hs : s = 200 <;> constructor <;>
                simp_all [AppSvc.get_data, hauth, hv, h4, hs, metricDiscipline, countObsList,
                  durObsList, List.filterMap_append]

theorem get_preset_data_metrics (env : AppSvc.GetPresetEnv) :
    metricDiscipline "GET" "/api/preset/{id}" (AppSvc.get_preset_data env) := by
  rcases env with ⟨pid, auth, aresp⟩
  cases hauth : truthy auth
  · simp [AppSvc.get_preset_data, hauth, metricDiscipline, countObsList, durObsList]
  · rcases hv : AppSvc.validateTokenBlock "app.get_preset" aresp with ⟨vres, vevs⟩
    have hc : countObsList vevs = [] := by
      have := validateTokenBlock_countObs "app.get_preset" aresp
      rw [hv] at this; exact this
    have hd : durObsList vevs = [] := by
      have := validateTokenBlock_durObs "app.get_preset" aresp
      rw [hv] at this; exact this
    cases vres with
    | error e =>
        constructor <;>
          simp_all [AppSvc.get_preset_data, hauth, hv, metricDiscipline, countObsList,
            durObsList, List.filterMap_append]
    | ok u =>
        cases hp : jLookup AppSvc.presetData pid <;> constructor <;>
          simp_all [AppSvc.get_preset_data, hauth, hv, hp, metricDiscipline, countObsList,
            durObsList, List.filterMap_append]

theorem list_presets_metrics (env : AppSvc.ListPresetsEnv) :
    metricDiscipline "GET" "/api/presets" (AppSvc.list_presets env) := by
  rcases env with ⟨auth, aresp⟩
  cases hauth : truthy auth
  · simp [AppSvc.list_presets, hauth, metricDiscipline, countObsList, durObsList]
  · rcases hv : AppSvc.validateTokenBlock "app.list_presets" aresp with ⟨vres, vevs⟩
    have hc : countObsList vevs = [] := by
      have := validateTokenBlock_countObs "app.list_presets" aresp
      rw [hv] at this; exact this
    have hd : durObsList vevs = [] := by
      have := validateTokenBlock_durObs "app.list_presets" aresp
      rw [hv] at this; exact this
    cases vres with
    | error e =>
        constructor <;>
          simp_all [AppSvc.list_presets, hauth, hv, metricDiscipline, countObsList,
            durObsList, List.filterMap_append]
    | ok u =>
        constructor <;>
          simp_all [AppSvc.list_presets, hauth, hv, metricDiscipline, countObsList,
            durObsList, List.filterMap_append]

theorem seed_preset_data_metrics (env : AppSvc.SeedEnv) :
    metricDiscipline "POST" "/api/seed" (AppSvc.seed_preset_data env) := by
  rcases env with ⟨auth, aresp, store⟩
  cases hauth : truthy auth
  · simp [AppSvc.seed_preset_data, hauth, metricDiscipline, countObsList, durObsList]
  · rcases hv : AppSvc.validateTokenBlock "app.seed_data" aresp with ⟨vres, vevs⟩
    have hc : countObsList vevs = [] := by
      have := validateTokenBlock_countObs "app.seed_data" aresp
      rw [hv] at this; exact this
    have hd : durObsList vevs = [] := by
      have := validateTokenBlock_durObs "app.seed_data" aresp
      rw [hv] at this; exact this
    cases vres with
    | error e =>
        constructor <;>
          simp_all [AppSvc.seed_preset_data, hauth, hv, metricDiscipline, countObsList,
            durObsList, List.filterMap_append]
    | ok u =>
        rcases hl : AppSvc.seedLoop 0 AppSvc.seedItems store with ⟨done, ids, loopEvs⟩
        have hlc : countObsList loopEvs = [] := by
          have := seedLoop_countObs AppSvc.seedItems 0 store
          rw [hl] at this; exact this
        have hld : durObsList loopEvs = [] := by
          have := seedLoop_durObs AppSvc.seedItems 0 store
          rw [hl] at this; exact this
        simp only [countObsList] at hc hlc
        simp only [durObsList] at hd hld
        cases done <;> constructor <;>
          simp [AppSvc.seed_preset_data, hauth, hv, hl, metricDiscipline, countObsList,
            durObsList, List.filterMap_append, hc, hd, hlc, hld]

/-- C1 counterexample: a request to `get_data` with the Authorization
header absent reaches the unauthenticated terminal state having recorded
zero duration observations, and its single counter observation is tagged
with method and endpoint only, not with the final status — refuting
"exactly one count observation and exactly one duration observation ...
each tagged with the method, the route, and the final status". -/
theorem C1_counterexample :
    (AppSvc.get_data ⟨"abc-123", none, HttpOutcome.reqError, HttpOutcome.reqError⟩).1 =
      Except.error ⟨401, "Missing authorization header"⟩ ∧
    durObsList (AppSvc.get_data
      ⟨"abc-123", none, HttpOutcome.reqError, HttpOutcome.reqError⟩).2 = [] ∧
    countObsList (AppSvc.get_data
      ⟨"abc-123", none, HttpOutcome.reqError, HttpOutcome.reqError⟩).2 =
      [("http_requests_total", 1, [("method", "GET"), ("endpoint", "/api/data/{id}")])] :=
  ⟨rfl, rfl, rfl⟩

/-- C1 (amended): every app-service endpoint handler records exactly one
counter observation per request, tagged with method and endpoint only
(no status tag), at handler entry on every terminal state; and it
records exactly one duration observation — tagged with method, endpoint
and status "200" — exactly when the request terminates successfully,
while error terminal states record no duration observation. -/
theorem C1_metric_observations :
    (∀ e : AppSvc.CreateDataEnv, metricDiscipline "POST" "/api/data" (AppSvc.create_data e)) ∧
    (∀ e : AppSvc.GetDataEnv, metricDiscipline "GET" "/api/data/{id}" (AppSvc.get_data e)) ∧
    (∀ e : AppSvc.GetPresetEnv,
       metricDiscipline "GET" "/api/preset/{id}" (AppSvc.get_preset_data e)) ∧
    (∀ e : AppSvc.ListPresetsEnv, metricDiscipline "GET" "/api/presets" (AppSvc.list_presets e)) ∧
    (∀ e : AppSvc.SeedEnv, metricDiscipline "POST" "/api/seed" (AppSvc.seed_preset_data e)) :=
  ⟨create_data_metrics, get_data_metrics, get_preset_data_metrics, list_presets_metrics,
   seed_preset_data_metrics⟩

/-- C4: for every request to an authenticated app-service endpoint with
the Authorization header absent (or empty, which Python treats as
falsy), the handler returns 401 with detail "Missing authorization
header", and the only span opened for the request is the root span — in
particular no collaborator span (`app.validate_token`,
`app.store_data`, `app.retrieve_data`, seeding spans) is ever started. -/
theorem C4_missing_auth_no_child_spans :
    (∀ e : AppSvc.CreateDataEnv, truthy e.authorization = false →
       (AppSvc.create_data e).1 = Except.error ⟨401, "Missing authorization header"⟩ ∧
       openedSpans (AppSvc.create_data e).2 = ["app.create_data"]) ∧
    (∀ e : AppSvc.GetDataEnv, truthy e.authorization = false →
       (AppSvc.get_data e).1 = Except.error ⟨401, "Missing authorization header"⟩ ∧
       openedSpans (AppSvc.get_data e).2 = ["app.get_data"]) ∧
    (∀ e : AppSvc.GetPresetEnv, truthy e.authorization = false →
       (AppSvc.get_preset_data e).1 = Except.error ⟨401, "Missing authorization header"⟩ ∧
       openedSpans (AppSvc.get_preset_data e).2 = ["app.get_preset"]) ∧
    (∀ e : AppSvc.ListPresetsEnv, truthy e.authorization = false →
       (AppSvc.list_presets e).1 = Except.error ⟨401, "Missing authorization header"⟩ ∧
       openedSpans (AppSvc.list_presets e).2 = ["app.list_presets"]) ∧
    (∀ e : AppSvc.SeedEnv, truthy e.authorization = false →
       (AppSvc.seed_preset_data e).1 = Except.error ⟨401, "Missing authorization header"⟩ ∧
       openedSpans (AppSvc.seed_preset_data e).2 = ["app.seed_data"]) := by
  refine ⟨?_, ?_, ?_, ?_, ?_⟩
  · intro e he; rcases e with ⟨d, auth, aresp, dresp⟩
    simp only at he
    exact ⟨by simp [AppSvc.create_data, he], by simp [AppSvc.create_data, he, openedSpans]⟩
  · intro e he; rcases e with ⟨item, auth, aresp, dresp⟩
    simp only at he
    exact ⟨by simp [AppSvc.get_data, he], by simp [AppSvc.get_data, he, openedSpans]⟩
  · intro e he; rcases e with ⟨pid, auth, aresp⟩
    simp only at he
    exact ⟨by simp [AppSvc.get_preset_data, he],
           by simp [AppSvc.get_preset_data, he, openedSpans]⟩
  · intro e he; rcases e with ⟨auth, aresp⟩
    simp only at he
    exact ⟨by simp [AppSvc.list_presets, he], by simp [AppSvc.list_presets, he, openedSpans]⟩
  · intro e he; rcases e with ⟨auth, aresp, store⟩
    simp only at he
    exact ⟨by simp [AppSvc.seed_preset_data, he],
           by simp [AppSvc.seed_preset_data, he, openedSpans]⟩

/-- C4 witness: with no Authorization header, `create_data` returns 401
and opens only its root span. -/
theorem C4_witness :
    (AppSvc.create_data ⟨JsonVal.null, none, HttpOutcome.reqError, HttpOutcome.reqError⟩).1 =
      Except.error ⟨401, "Missing authorization header"⟩ ∧
    openedSpans (AppSvc.create_data
      ⟨JsonVal.null, none, HttpOutcome.reqError, HttpOutcome.reqError⟩).2 =
      ["app.create_data"] :=
  C4_missing_auth_no_child_spans.1
    ⟨JsonVal.null, none, HttpOutcome.reqError, HttpOutcome.reqError⟩ rfl

/-- C5: for every request to an app-service endpoint whose
token-validation call fails with `httpx.RequestError` (connection
refused, or the fixed 5-second timeout expiring as
`httpx.TimeoutException`, its subclass), the handler returns 503 with
detail "Auth service unavailable", and the only outbound call attempted
is the auth-service validation call with its 5-second timeout — in
particular the db-service storage collaborator is never called. -/
theorem C5_auth_unavailable_db_never_called :
    (∀ e : AppSvc.CreateDataEnv, truthy e.authorization = true →
       e.authResp = HttpOutcome.reqError →
       (AppSvc.create_data e).1 = Except.error ⟨503, "Auth service unavailable"⟩ ∧
       callOutList (AppSvc.create_data e).2 = [(AUTH_SERVICE_URL, "/validate", 5)] ∧
       callsTo DB_SERVICE_URL (AppSvc.create_data e).2 = 0) ∧
    (∀ e : AppSvc.GetDataEnv, truthy e.authorization = true →
       e.authResp = HttpOutcome.reqError →
       (AppSvc.get_data e).1 = Except.error ⟨503, "Auth service unavailable"⟩ ∧
       callOutList (AppSvc.get_data e).2 = [(AUTH_SERVICE_URL, "/validate", 5)] ∧
       callsTo DB_SERVICE_URL (AppSvc.get_data e).2 = 0) ∧
    (∀ e : AppSvc.GetPresetEnv, truthy e.authorization = true →
       e.authResp = HttpOutcome.reqError →
       (AppSvc.get_preset_data e).1 = Except.error ⟨503, "Auth service unavailable"⟩ ∧
       callOutList (AppSvc.get_preset_data e).2 = [(AUTH_SERVICE_URL, "/validate", 5)] ∧
       callsTo DB_SERVICE_URL (AppSvc.get_preset_data e).2 = 0) ∧
    (∀ e : AppSvc.ListPresetsEnv, truthy e.authorization = true →
       e.authResp = HttpOutcome.reqError →
       (AppSvc.list_presets e).1 = Except.error ⟨503, "Auth service unavailable"⟩ ∧
       callOutList (AppSvc.list_presets e).2 = [(AUTH_SERVICE_URL, "/validate", 5)] ∧
       callsTo DB_SERVICE_URL (AppSvc.list_presets e).2 = 0) ∧
    (∀ e : AppSvc.SeedEnv, truthy e.authorization = true →
       e.authResp = HttpOutcome.reqError →
       (AppSvc.seed_preset_data e).1 = Except.error ⟨503, "Auth service unavailable"⟩ ∧
       callOutList (AppSvc.seed_preset_data e).2 = [(AUTH_SERVICE_URL, "/validate", 5)] ∧
       callsTo DB_SERVICE_URL (AppSvc.seed_preset_data e).2 = 0) := by
  refine ⟨?_, ?_, ?_, ?_, ?_⟩
  · intro e he ha; rcases e with ⟨d, auth, aresp, dresp⟩
    simp only at he ha; subst ha
    refine ⟨?_, ?_, ?_⟩ <;>
      simp [AppSvc.create_data, AppSvc.validateTokenBlock, he, callOutList, callsTo,
        AUTH_SERVICE_URL, DB_SERVICE_URL]
  · intro e he ha; rcases e with ⟨item, auth, aresp, dresp⟩
    simp only at he ha; subst ha
    refine ⟨?_, ?_, ?_⟩ <;>
      simp [AppSvc.get_data, AppSvc.validateTokenBlock, he, callOutList, callsTo,
        AUTH_SERVICE_URL, DB_SERVICE_URL]
  · intro e he ha; rcases e with ⟨pid, auth, aresp⟩
    simp only at he ha; subst ha
    refine ⟨?_, ?_, ?_⟩ <;>
      simp [AppSvc.get_preset_data, AppSvc.validateTokenBlock, he, callOutList, callsTo,
        AUTH_SERVICE_URL, DB_SERVICE_URL]
  · intro e he ha; rcases e with ⟨auth, aresp⟩
    simp only at he ha; subst ha
    refine ⟨?_, ?_, ?_⟩ <;>
      simp [AppSvc.list_presets, AppSvc.validateTokenBlock, he, callOutList, callsTo,
        AUTH_SERVICE_URL, DB_SERVICE_URL]
  · intro e he ha; rcases e with ⟨auth, aresp, store⟩
    simp only at he ha; subst ha
    refine ⟨?_, ?_, ?_⟩ <;>
      simp [AppSvc.seed_preset_data, AppSvc.validateTokenBlock, he, callOutList, callsTo,
        AUTH_SERVICE_URL, DB_SERVICE_URL]

/-- C5 witness: with a present header and an unreachable auth service,
`create_data` returns 503, attempts only the auth validation call (with
the 5-second timeout), and never calls the db service. -/
theorem C5_witness :
    (AppSvc.create_data
      ⟨JsonVal.null, some "Bearer tok", HttpOutcome.reqError, HttpOutcome.reqError⟩).1 =
      Except.error ⟨503, "Auth service unavailable"⟩ ∧
    callOutList (AppSvc.create_data
      ⟨JsonVal.null, some "Bearer tok", HttpOutcome.reqError, HttpOutcome.reqError⟩).2 =
      [(AUTH_SERVICE_URL, "/validate", 5)] ∧
    callsTo DB_SERVICE_URL (AppSvc.create_data
      ⟨JsonVal.null, some "Bearer tok", HttpOutcome.reqError, HttpOutcome.reqError⟩).2 = 0 :=
  C5_auth_unavailable_db_never_called.1
    ⟨JsonVal.null, some "Bearer tok", HttpOutcome.reqError, HttpOutcome.reqError⟩ rfl rfl

/-- C8: the instrumented `get_data` handler returns exactly the same
caller-visible outcome (status code, detail, and response body) as the
uninstrumented baseline `get_data` handler, for every request
environment — the instrumentation changes telemetry only. -/
theorem C8_get_data_refines_baseline (env : AppSvc.GetDataEnv) :
    (AppSvc.get_data env).1 = BaselineApp.get_data env := by
  rcases env with ⟨item, auth, aresp, dresp⟩
  cases hauth : truthy auth
  · simp [AppSvc.get_data, BaselineApp.get_data, hauth]
  · cases aresp with
    | reqError =>
        simp [AppSvc.get_data, BaselineApp.get_data, AppSvc.validateTokenBlock, hauth]
    | resp s b =>
        by_cases hs : s = 200
        · cases dresp with
          | reqError =>
              simp [AppSvc.get_data, BaselineApp.get_data, AppSvc.validateTokenBlock, hauth, hs]
          | resp ds db =>
              by_cases h4 : ds = 404
              · simp [AppSvc.get_data, BaselineApp.get_data, AppSvc.validateTokenBlock,
                  hauth, hs, h4]
              · by_cases hds : ds = 200 <;>
                  simp [AppSvc.get_data, BaselineApp.get_data, AppSvc.validateTokenBlock,
                    hauth, hs, h4, hds]
        · simp [AppSvc.get_data, BaselineApp.get_data, AppSvc.validateTokenBlock, hauth, hs]

/-- C2 counterexample: in `get_data`, an auth collaborator that is
reachable but reports its own internal failure (HTTP 500 from
`/validate`) yields caller-visible 401 "Invalid token", not the 500
(internal-error) that the claim's "collaborator internal failure →
internal-error" mapping requires. -/
theorem C2_counterexample :
    (AppSvc.get_data ⟨"abc-123", some "Bearer tok", HttpOutcome.resp 500 JsonVal.null,
        HttpOutcome.resp 200 JsonVal.null⟩).1 = Except.error ⟨401, "Invalid token"⟩ ∧
    (401 : Nat) ≠ 500 :=
  ⟨rfl, by decide⟩

/-- C2 (amended): in `create_data` and `get_data`, missing credentials
yield 401 with only the root span open and marked error; any non-200
auth-validation response — invalid credentials and auth-internal
failures alike — yields 401; an unreachable auth collaborator yields
503; an unreachable db collaborator yields 503; in `get_data` a 404 db
response yields 404 and any other non-200 db response yields 500, while
in `create_data` every non-200 db response (404 included) yields 500;
and in each collaborator-failure case both the current child span and
the root span are explicitly set to error status with the descriptive
message shown. -/
theorem C2_failure_status_mapping :
    (∀ e : AppSvc.CreateDataEnv,
      (truthy e.authorization = false →
        (AppSvc.create_data e).1 = Except.error ⟨401, "Missing authorization header"⟩ ∧
        marksError (AppSvc.create_data e).2 "app.create_data" "Missing authorization") ∧
      (∀ s b, truthy e.authorization = true → e.authResp = HttpOutcome.resp s b → s ≠ 200 →
        (AppSvc.create_data e).1 = Except.error ⟨401, "Invalid token"⟩ ∧
        marksError (AppSvc.create_data e).2 "app.validate_token" "Invalid token" ∧
        marksError (AppSvc.create_data e).2 "app.create_data" "Invalid token") ∧
      (truthy e.authorization = true → e.authResp = HttpOutcome.reqError →
        (AppSvc.create_data e).1 = Except.error ⟨503, "Auth service unavailable"⟩ ∧
        marksError (AppSvc.create_data e).2 "app.validate_token" "Auth service unavailable" ∧
        marksError (AppSvc.create_data e).2 "app.create_data" "Auth service unavailable") ∧
      (∀ b, truthy e.authorization = true → e.authResp = HttpOutcome.resp 200 b →
        e.dbResp = HttpOutcome.reqError →
        (AppSvc.create_data e).1 = Except.error ⟨503, "Database service unavailable"⟩ ∧
        marksError (AppSvc.create_data e).2 "app.store_data" "Database service unavailable" ∧
        marksError (AppSvc.create_data e).2 "app.create_data" "Database service unavailable") ∧
      (∀ b s2 b2, truthy e.authorization = true → e.authResp = HttpOutcome.resp 200 b →
        e.dbResp = HttpOutcome.resp s2 b2 → s2 ≠ 200 →
        (AppSvc.create_data e).1 = Except.error ⟨500, "Database operation failed"⟩ ∧
        marksError (AppSvc.create_data e).2 "app.store_data" "Database operation failed" ∧
        marksError (AppSvc.create_data e).2 "app.create_data" "Database operation failed")) ∧
    (∀ e : AppSvc.GetDataEnv,
      (truthy e.authorization = false →
        (AppSvc.get_data e).1 = Except.error ⟨401, "Missing authorization header"⟩ ∧
        marksError (AppSvc.get_data e).2 "app.get_data" "Missing authorization") ∧
      (∀ s b, truthy e.authorization = true → e.authResp = HttpOutcome.resp s b → s ≠ 200 →
        (AppSvc.get_data e).1 = Except.error ⟨401, "Invalid token"⟩ ∧
        marksError (AppSvc.get_data e).2 "app.validate_token" "Invalid token" ∧
        marksError (AppSvc.get_data e).2 "app.get_data" "Invalid token") ∧
      (truthy e.authorization = true → e.authResp = HttpOutcome.reqError →
        (AppSvc.get_data e).1 = Except.error ⟨503, "Auth service unavailable"⟩ ∧
        marksError (AppSvc.get_data e).2 "app.validate_token" "Auth service unavailable" ∧
        marksError (AppSvc.get_data e).2 "app.get_data" "Auth service unavailable") ∧
      (∀ b, truthy e.authorization = true → e.authResp = HttpOutcome.resp 200 b →
        e.dbResp = HttpOutcome.reqError →
        (AppSvc.get_data e).1 = Except.error ⟨503, "Database service unavailable"⟩ ∧
        marksError (AppSvc.get_data e).2 "app.retrieve_data" "Database service unavailable" ∧
        marksError (AppSvc.get_data e).2 "app.get_data" "Database service unavailable") ∧
      (∀ b b2, truthy e.authorization = true → e.authResp = HttpOutcome.resp 200 b →
        e.dbResp = HttpOutcome.resp 404 b2 →
        (AppSvc.get_data e).1 = Except.error ⟨404, "Item not found"⟩ ∧
        marksError (AppSvc.get_data e).2 "app.retrieve_data" "Item not found" ∧
        marksError (AppSvc.get_data e).2 "app.get_data" "Item not found") ∧
      (∀ b s2 b2, truthy e.authorization = true → e.authResp = HttpOutcome.resp 200 b →
        e.dbResp = HttpOutcome.resp s2 b2 → s2 ≠ 404 → s2 ≠ 200 →
        (AppSvc.get_data e).1 = Except.error ⟨500, "Database operation failed"⟩ ∧
        marksError (AppSvc.get_data e).2 "app.retrieve_data" "Database operation failed" ∧
        marksError (AppSvc.get_data e).2 "app.get_data" "Database operation failed")) := by
  constructor
  · intro e
    rcases e with ⟨d, auth, aresp, dresp⟩
    refine ⟨?_, ?_, ?_, ?_, ?_⟩
    · intro he; simp only at he
      exact ⟨by simp [AppSvc.create_data, he],
             by simp [AppSvc.create_data, he, marksError]⟩
    · intro s b he ha hs; simp only at he ha; subst ha
      refine ⟨?_, ?_, ?_⟩ <;>
        simp [AppSvc.create_data, AppSvc.validateTokenBlock, he, hs, marksError]
    · intro he ha; simp only at he ha; subst ha
      refine ⟨?_, ?_, ?_⟩ <;>
        simp [AppSvc.create_data, AppSvc.validateTokenBlock, he, marksError]
    · intro b he ha hd; simp only at he ha hd; subst ha; subst hd
      refine ⟨?_, ?_, ?_⟩ <;>
        simp [AppSvc.create_data, AppSvc.validateTokenBlock, he, marksError]
    · intro b s2 b2 he ha hd hs2; simp only at he ha hd; subst ha; subst hd
      refine ⟨?_, ?_, ?_⟩ <;>
        simp [AppSvc.create_data, AppSvc.validateTokenBlock, he, hs2, marksError]
  · intro e
    rcases e with ⟨item, auth, aresp, dresp⟩
    refine ⟨?_, ?_, ?_, ?_, ?_, ?_⟩
    · intro he; simp only at he
      exact ⟨by simp [AppSvc.get_data, he],
             by simp [AppSvc.get_data, he, marksError]⟩
    · intro s b he ha hs; simp only at he ha; subst ha
      refine ⟨?_, ?_, ?_⟩ <;>
        simp [AppSvc.get_data, AppSvc.validateTokenBlock, he, hs, marksError]
    · intro he ha; simp only at he ha; subst ha
      refine ⟨?_, ?_, ?_⟩ <;>
        simp [AppSvc.get_data, AppSvc.validateTokenBlock, he, marksError]
    · intro b he ha hd; simp only at he ha hd; subst ha; subst hd
      refine ⟨?_, ?_, ?_⟩ <;>
        simp [AppSvc.get_data, AppSvc.validateTokenBlock, he, marksError]
    · intro b b2 he ha hd; simp only at he ha hd; subst ha; subst hd
      refine ⟨?_, ?_, ?_⟩ <;>
        simp [AppSvc.get_data, AppSvc.validateTokenBlock, he, marksError]
    · intro b s2 b2 he ha hd h4 hs2; simp only at he ha hd; subst ha; subst hd
      refine ⟨?_, ?_, ?_⟩ <;>
        simp [AppSvc.get_data, AppSvc.validateTokenBlock, he, h4, hs2, marksError]

/-- C2 witness: concrete instances of the amended mapping — an invalid
token (auth answers 401) maps to caller-visible 401, and in `get_data` a
db 404 maps to caller-visible 404 with both open spans marked. -/
theorem C2_witness :
    ((AppSvc.create_data ⟨JsonVal.null, some "Bearer tok",
        HttpOutcome.resp 401 JsonVal.null, HttpOutcome.reqError⟩).1 =
      Except.error ⟨401, "Invalid token"⟩ ∧
     marksError (AppSvc.create_data ⟨JsonVal.null, some "Bearer tok",
        HttpOutcome.resp 401 JsonVal.null, HttpOutcome.reqError⟩).2
       "app.validate_token" "Invalid token" ∧
     marksError (AppSvc.create_data ⟨JsonVal.null, some "Bearer tok",
        HttpOutcome.resp 401 JsonVal.null, HttpOutcome.reqError⟩).2
       "app.create_data" "Invalid token") ∧
    ((AppSvc.get_data ⟨"abc-123", some "Bearer tok",
        HttpOutcome.resp 200 JsonVal.null, HttpOutcome.resp 404 JsonVal.null⟩).1 =
      Except.error ⟨404, "Item not found"⟩ ∧
     marksError (AppSvc.get_data ⟨"abc-123", some "Bearer tok",
        HttpOutcome.resp 200 JsonVal.null, HttpOutcome.resp 404 JsonVal.null⟩).2
       "app.retrieve_data" "Item not found" ∧
     marksError (AppSvc.get_data ⟨"abc-123", some "Bearer tok",
        HttpOutcome.resp 200 JsonVal.null, HttpOutcome.resp 404 JsonVal.null⟩).2
       "app.get_data" "Item not found") :=
  ⟨(C2_failure_status_mapping.1 ⟨JsonVal.null, some "Bearer tok",
      HttpOutcome.resp 401 JsonVal.null, HttpOutcome.reqError⟩).2.1
      401 JsonVal.null rfl rfl (by decide),
   (C2_failure_status_mapping.2 ⟨"abc-123", some "Bearer tok",
      HttpOutcome.resp 200 JsonVal.null, HttpOutcome.resp 404 JsonVal.null⟩).2.2.2.2.1
      JsonVal.null JsonVal.null rfl rfl rfl⟩

/-- Seeding loop under total store failure: when every store call in
range fails (connection failure or non-200), the loop completes without
raising and collects no ids. -/
theorem seedLoop_all_fail (items : List JsonVal) :
    ∀ (idx : Nat) (f : Nat → HttpOutcome),
    (∀ i, idx ≤ i → i < idx + items.length → storeCallFails (f i)) →
    (AppSvc.seedLoop idx items f).1 = true ∧ (AppSvc.seedLoop idx items f).2.1 = [] := by
  induction items with
  | nil => intro idx f _; simp [AppSvc.seedLoop]
  | cons item rest ih =>
      intro idx f hf
      have hfail : storeCallFails (f idx) := hf idx le_rfl (by simp)
      have hrest : ∀ i, idx + 1 ≤ i → i < (idx + 1) + rest.length → storeCallFails (f i) := by
        intro i h1 h2
        exact hf i (by omega) (by simp; omega)
      have hstep : (AppSvc.seedItemStep idx (f idx)).1 = AppSvc.SeedStep.skipped := by
        cases hc : f idx with
        | reqError => simp [AppSvc.seedItemStep]
        | resp s b =>
            rw [hc] at hfail
            simp only [storeCallFails] at hfail
            simp [AppSvc.seedItemStep, hfail]
      rcases hs : AppSvc.seedItemStep idx (f idx) with ⟨step, evs⟩
      rw [hs] at hstep; simp only at hstep; subst hstep
      have := ih (idx + 1) f hrest
      constructor <;> simp [AppSvc.seedLoop, hs, this.1, this.2]

/-- C9: for every authorized request to the seed endpoint in which every
individual store call to the db service fails (connection failure) or
returns a non-200 status, the handler still returns success with body
status "seeded", items_created 0 and an empty id list: per-item failures
are swallowed and never produce a caller-visible error. -/
theorem C9_seed_swallows_store_failures (e : AppSvc.SeedEnv) (b : JsonVal)
    (hauth : truthy e.authorization = true)
    (hok : e.authResp = HttpOutcome.resp 200 b)
    (hfail : ∀ i, i < 3 → storeCallFails (e.storeResp i)) :
    (AppSvc.seed_preset_data e).1 =
      Except.ok (JsonVal.obj
        [("status", JsonVal.str "seeded"),
         ("items_created", JsonVal.num 0),
         ("item_ids", JsonVal.arr [])]) := by
  rcases e with ⟨auth, aresp, store⟩
  simp only at hauth hok hfail
  subst hok
  have hloop := seedLoop_all_fail AppSvc.seedItems 0 store (by
    intro i h1 h2
    simp [AppSvc.seedItems] at h2
    exact hfail i h2)
  rcases hl : AppSvc.seedLoop 0 AppSvc.seedItems store with ⟨done, ids, levs⟩
  rw [hl] at hloop
  simp only at hloop
  obtain ⟨hdone, hids⟩ := hloop
  subst hdone; subst hids
  simp [AppSvc.seed_preset_data, AppSvc.validateTokenBlock, hauth, hl]

/-- C9 witness: with a valid token and the db service unreachable for
every store call, seeding returns success with zero items created. -/
theorem C9_witness :
    (AppSvc.seed_preset_data
      ⟨some "Bearer tok", HttpOutcome.resp 200 JsonVal.null, fun _ => HttpOutcome.reqError⟩).1 =
      Except.ok (JsonVal.obj
        [("status", JsonVal.str "seeded"),
         ("items_created", JsonVal.num 0),
         ("item_ids", JsonVal.arr [])]) :=
  C9_seed_swallows_store_failures
    ⟨some "Bearer tok", HttpOutcome.resp 200 JsonVal.null, fun _ => HttpOutcome.reqError⟩
    JsonVal.null rfl rfl (fun _ _ => trivial)

/-- C10: the db-service `get_user` endpoint reads no Authorization
header (its behaviour — result and telemetry — is identical whatever
header value accompanies the request); when the users row exists it
returns success with the stored username and plaintext password in the
response body, and when it does not exist it returns 404 "User not
found". -/
theorem C10_get_user_no_auth_plaintext :
    (∀ (uname : String) (a a2 : Option String) (q : Except String (Option (String × String))),
       DbSvc.get_user ⟨uname, a, q⟩ = DbSvc.get_user ⟨uname, a2, q⟩) ∧
    (∀ (e : DbSvc.GetUserEnv) (u p : String),
       e.queryResult = Except.ok (some (u, p)) →
       (DbSvc.get_user e).1 =
         Except.ok (JsonVal.obj [("username", JsonVal.str u), ("password", JsonVal.str p)])) ∧
    (∀ e : DbSvc.GetUserEnv, e.queryResult = Except.ok none →
       (DbSvc.get_user e).1 = Except.error ⟨404, "User not found"⟩) := by
  refine ⟨?_, ?_, ?_⟩
  · intro uname a a2 q
    rcases q with e | h
    · simp [DbSvc.get_user]
    · rcases h with _ | ⟨u, p⟩ <;> simp [DbSvc.get_user]
  · intro e u p hq; rcases e with ⟨uname, auth, q⟩; simp only at hq; subst hq
    simp [DbSvc.get_user]
  · intro e hq; rcases e with ⟨uname, auth, q⟩; simp only at hq; subst hq
    simp [DbSvc.get_user]

/-- C10 witness: `get_user` behaves identically with and without a
header, returns the stored plaintext password for an existing user, and
404 for a missing one. -/
theorem C10_witness :
    DbSvc.get_user ⟨"admin", none, Except.ok (some ("admin", "admin123"))⟩ =
      DbSvc.get_user ⟨"admin", some "token", Except.ok (some ("admin", "admin123"))⟩ ∧
    (DbSvc.get_user ⟨"admin", none, Except.ok (some ("admin", "admin123"))⟩).1 =
      Except.ok (JsonVal.obj
        [("username", JsonVal.str "admin"), ("password", JsonVal.str "admin123")]) ∧
    (DbSvc.get_user ⟨"ghost", none, Except.ok none⟩).1 =
      Except.error ⟨404, "User not found"⟩ :=
  ⟨C10_get_user_no_auth_plaintext.1 "admin" none (some "token")
      (Except.ok (some ("admin", "admin123"))),
   C10_get_user_no_auth_plaintext.2.1
      ⟨"admin", none, Except.ok (some ("admin", "admin123"))⟩ "admin" "admin123" rfl,
   C10_get_user_no_auth_plaintext.2.2 ⟨"ghost", none, Except.ok none⟩ rfl⟩

/-! Lemmas about the spec-modelled trace-context propagator. -/

theorem hexVal_hexDigitChar (v : Nat) (h : v < 16) :
    Propagator.hexVal (Propagator.hexDigitChar v) = some v := by
  interval_cases v <;> rfl

theorem hexDigitChar_ne_dash (v : Nat) (h : v < 16) :
    Propagator.hexDigitChar v ≠ '-' := by
  interval_cases v <;> decide

theorem toHexFixed_length (w : Nat) : ∀ n, (Propagator.toHexFixed n w).length = w := by
  induction w with
  | zero => intro n; rfl
  | succ w ih => intro n; simp [Propagator.toHexFixed, ih]

theorem dash_not_mem_toHexFixed (w : Nat) :
    ∀ n, ('-' : Char) ∉ Propagator.toHexFixed n w := by
  induction w with
  | zero => intro n; simp [Propagator.toHexFixed]
  | succ w ih =>
      intro n hmem
      simp only [Propagator.toHexFixed] at hmem
      rcases List.mem_append.mp hmem with h1 | h2
      · exact ih (n / 16) h1
      · have hv : n % 16 < 16 := Nat.mod_lt _ (by norm_num)
        simp only [List.mem_singleton] at h2
        exact hexDigitChar_ne_dash (n % 16) hv h2.symm

theorem parseHexAux_append (xs : List Char) :
    ∀ (acc : Nat) (ys : List Char),
    Propagator.parseHexAux acc (xs ++ ys) =
      (Propagator.parseHexAux acc xs).bind fun a => Propagator.parseHexAux a ys := by
  induction xs with
  | nil => intro acc ys; simp [Propagator.parseHexAux]
  | cons c cs ih =>
      intro acc ys
      cases hv : Propagator.hexVal c with
      | none => simp [Propagator.parseHexAux, hv]
      | some v => simp [Propagator.parseHexAux, hv, ih]

theorem parseHexAux_toHexFixed (w : Nat) :
    ∀ (n acc : Nat), n < 16 ^ w →
    Propagator.parseHexAux acc (Propagator.toHexFixed n w) = some (acc * 16 ^ w + n) := by
  induction w with
  | zero =>
      intro n acc hn
      interval_cases n
      simp [Propagator.toHexFixed, Propagator.parseHexAux]
  | succ w ih =>
      intro n acc hn
      have hdiv : n / 16 < 16 ^ w := by
        rw [Nat.div_lt_iff_lt_mul (by norm_num)]
        rw [pow_succ] at hn
        exact hn
      have hmod : n % 16 < 16 := Nat.mod_lt _ (by norm_num)
      have hdm : n / 16 * 16 + n % 16 = n := by
        have := Nat.div_add_mod n 16
        omega
      rw [show Propagator.toHexFixed n (w + 1) =
            Propagator.toHexFixed (n / 16) w ++ [Propagator.hexDigitChar (n % 16)] from rfl]
      rw [parseHexAux_append, ih (n / 16) acc hdiv]
      have hstep : Propagator.parseHexAux (acc * 16 ^ w + n / 16)
          [Propagator.hexDigitChar (n % 16)] =
          some ((acc * 16 ^ w + n / 16) * 16 + n % 16) := by
        simp [Propagator.parseHexAux, hexVal_hexDigitChar (n % 16) hmod]
      calc (some (acc * 16 ^ w + n / 16)).bind
            (fun a => Propagator.parseHexAux a [Propagator.hexDigitChar (n % 16)])
          = Propagator.parseHexAux (acc * 16 ^ w + n / 16)
              [Propagator.hexDigitChar (n % 16)] := rfl
        _ = some ((acc * 16 ^ w + n / 16) * 16 + n % 16) := hstep
        _ = some (acc * 16 ^ (w + 1) + n) := by
              congr 1
              calc (acc * 16 ^ w + n / 16) * 16 + n % 16
                  = acc * (16 ^ w * 16) + (n / 16 * 16 + n % 16) := by ring
                _ = acc * 16 ^ (w + 1) + n := by rw [hdm, pow_succ]

theorem splitDash_append (xs : List Char) (hx : ('-' : Char) ∉ xs) (ys : List Char) :
    Propagator.splitDash (xs ++ '-' :: ys) = xs :: Propagator.splitDash ys := by
  induction xs with
  | nil => simp [Propagator.splitDash]
  | cons c cs ih =>
      have hc : c ≠ '-' := by
        intro h; exact hx (by simp [h])
      have hcs : ('-' : Char) ∉ cs := fun h => hx (List.mem_cons_of_mem _ h)
      simp only [List.cons_append, Propagator.splitDash, if_neg hc, List.append_eq]
      rw [ih hcs]

theorem parseHexAux_isSome (cs : List Char) :
    ∀ acc, (Propagator.parseHexAux acc cs).isSome =
      cs.all fun c => (Propagator.hexVal c).isSome := by
  induction cs with
  | nil => intro acc; simp [Propagator.parseHexAux]
  | cons c cs ih =>
      intro acc
      cases hv : Propagator.hexVal c with
      | none => simp [Propagator.parseHexAux, hv]
      | some v => simp [Propagator.parseHexAux, hv, ih]

theorem parseTraceparent_wellFormed (cs : List Char)
    (hp : (Propagator.parseTraceparent cs).isSome) :
    Propagator.headerWellFormed cs = true := by
  rcases hsp : Propagator.splitDash cs with _ | ⟨g1, _ | ⟨g2, _ | ⟨g3, _ | ⟨g4, _ | ⟨g5, rest⟩⟩⟩⟩⟩ <;>
    simp only [Propagator.parseTraceparent, Propagator.headerWellFormed, hsp] at hp ⊢
  · simp at hp
  · simp at hp
  · simp at hp
  · simp at hp
  · by_cases hcond : g1 = ['0', '0'] ∧ g2.length = 32 ∧ g3.length = 16 ∧ g4.length = 2
    · obtain ⟨h1, h2, h3, h4⟩ := hcond
      rw [if_pos ⟨h1, h2, h3, h4⟩] at hp
      cases hpt : Propagator.parseHex g2 with
      | none => rw [hpt] at hp; cases hps : Propagator.parseHex g3 <;>
                  cases hpf : Propagator.parseHex g4 <;> simp [hps, hpf] at hp
      | some t =>
          cases hps : Propagator.parseHex g3 with
          | none => rw [hpt, hps] at hp; cases hpf : Propagator.parseHex g4 <;>
                      simp [hpf] at hp
          | some s =>
              cases hpf : Propagator.parseHex g4 with
              | none => rw [hpt, hps, hpf] at hp; simp at hp
              | some fl =>
                  have ha2 : g2.all (fun c => (Propagator.hexVal c).isSome) = true := by
                    rw [← parseHexAux_isSome g2 0]
                    rw [show Propagator.parseHexAux 0 g2 = Propagator.parseHex g2 from rfl, hpt]
                    rfl
                  have ha3 : g3.all (fun c => (Propagator.hexVal c).isSome) = true := by
                    rw [← parseHexAux_isSome g3 0]
                    rw [show Propagator.parseHexAux 0 g3 = Propagator.parseHex g3 from rfl, hps]
                    rfl
                  have ha4 : g4.all (fun c => (Propagator.hexVal c).isSome) = true := by
                    rw [← parseHexAux_isSome g4 0]
                    rw [show Propagator.parseHexAux 0 g4 = Propagator.parseHex g4 from rfl, hpf]
                    rfl
                  simp [h1, h2, h3, h4, ha2, ha3, ha4]
    · rw [if_neg hcond] at hp
      simp at hp
  · simp at hp

/-- C6: extracting the header value produced by injecting a trace
context reproduces the same trace-id, a parent-span-id equal to the
span-id that was injected, and the same sampled flag, for every context
whose identifiers fit their serialized widths (128-bit trace id, 64-bit
span id). -/
theorem C6_extract_inject_roundtrip (ctx : Propagator.SpanContext)
    (ht : ctx.traceId < 16 ^ 32) (hs : ctx.spanId < 16 ^ 16) :
    Propagator.extract (some (Propagator.inject ctx)) =
      some ⟨ctx.traceId, ctx.spanId, ctx.sampled⟩ := by
  rcases ctx with ⟨tid, sid, smp⟩
  simp only at ht hs
  have hA := dash_not_mem_toHexFixed 32 tid
  have hB := dash_not_mem_toHexFixed 16 sid
  have hsplit : Propagator.splitDash (Propagator.inject ⟨tid, sid, smp⟩) =
      [['0', '0'], Propagator.toHexFixed tid 32, Propagator.toHexFixed sid 16,
       if smp then ['0', '1'] else ['0', '0']] := by
    have h1 : Propagator.inject ⟨tid, sid, smp⟩ =
        ['0', '0'] ++ '-' :: (Propagator.toHexFixed tid 32 ++ '-' ::
          (Propagator.toHexFixed sid 16 ++ '-' ::
            (if smp then ['0', '1'] else ['0', '0']))) := rfl
    rw [h1, splitDash_append _ (by decide), splitDash_append _ hA, splitDash_append _ hB]
    cases smp <;> rfl
  have hlen1 : (Propagator.toHexFixed tid 32).length = 32 := toHexFixed_length 32 tid
  have hlen2 : (Propagator.toHexFixed sid 16).length = 16 := toHexFixed_length 16 sid
  have hpt : Propagator.parseHex (Propagator.toHexFixed tid 32) = some tid := by
    have := parseHexAux_toHexFixed 32 tid 0 ht
    simpa [Propagator.parseHex] using this
  have hps : Propagator.parseHex (Propagator.toHexFixed sid 16) = some sid := by
    have := parseHexAux_toHexFixed 16 sid 0 hs
    simpa [Propagator.parseHex] using this
  have hf1 : Propagator.parseHex ['0', '1'] = some 1 := rfl
  have hf0 : Propagator.parseHex ['0', '0'] = some 0 := rfl
  cases smp <;>
    simp [Propagator.extract, Propagator.parseTraceparent, hsplit, hlen1, hlen2, hpt, hps,
      hf1, hf0]

/-- C6 witness: a concrete round trip. -/
theorem C6_witness :
    Propagator.extract (some (Propagator.inject ⟨5, 7, true⟩)) =
      some ⟨5, 7, true⟩ :=
  C6_extract_inject_roundtrip ⟨5, 7, true⟩ (by norm_num) (by norm_num)

/-- C7: extraction is a total function that yields "no parent" on a
missing header and on every malformed header value (anything outside the
four-group hex layout), never an error; and with no parent the service
mints a fresh trace id for its root span, which becomes the root of a
new trace (no parent span id). -/
theorem C7_no_parent_on_missing_or_malformed :
    Propagator.extract none = none ∧
    (∀ cs : List Char, Propagator.headerWellFormed cs = false →
       Propagator.extract (some cs) = none) ∧
    (∀ (h : Option (List Char)) (fresh : Nat), Propagator.extract h = none →
       Propagator.rootSpanTrace (Propagator.extract h) fresh = (fresh, none)) := by
  refine ⟨rfl, ?_, ?_⟩
  · intro cs hwf
    cases hp : Propagator.parseTraceparent cs with
    | none => simp [Propagator.extract, hp]
    | some p =>
        have hgood := parseTraceparent_wellFormed cs (by simp [hp])
        simp [hwf] at hgood
  · intro h fresh hnone
    rw [hnone]
    rfl

/-- C7 witness: a missing header and a concrete malformed header both
yield no parent, and the root span then starts a fresh trace. -/
theorem C7_witness :
    Propagator.extract none = none ∧
    Propagator.extract (some ['x']) = none ∧
    Propagator.rootSpanTrace (Propagator.extract (some ['x'])) 42 = (42, none) :=
  ⟨C7_no_parent_on_missing_or_malformed.1,
   C7_no_parent_on_missing_or_malformed.2.1 ['x'] rfl,
   C7_no_parent_on_missing_or_malformed.2.2 (some ['x']) 42
     (C7_no_parent_on_missing_or_malformed.2.1 ['x'] rfl)⟩

end Cnit
